import Mathlib

/-!
gogcli: recurring-event scope handling of `calendar update` and `calendar delete`.

A shallow embedding of `internal/cmd/calendar_edit.go`.

* Go values of type `error` are values of `Error`; a `(T, error)` result is an
  `Except Error T`, a lone `error` result is an `Option Error` (`none` is `nil`).
* A Go slice is an `Option (List _)`: `none` is the nil slice, `some []` the
  empty non-nil slice.  A Go pointer that may be nil is an `Option`.
* The remote calendar service is an oracle whose answer to a call may depend
  on every call made before it.  Each call the code makes is appended to a
  trace, together with whether it succeeded.
* The `*calendar.Event` patch that `applyUpdateScope` mutates in place is
  passed in and handed back.
* Helpers of the repository that are not part of the two source files
  (`requireAccount`, `flagProvided`, `truncateRecurrence`, ...) and functions
  of the Go library with large tables (`strings.ToLower`, the `%q` verb) are
  fields of `Env`.
-/

namespace Gogcli

/-! ## Go library -/

/-- Go `unicode.IsSpace`: the Latin-1 spaces and the code points with the
Unicode White_Space property. -/
def isSpace (c : Char) : Bool :=
  let n := c.toNat
  n == 0x09 || n == 0x0A || n == 0x0B || n == 0x0C || n == 0x0D || n == 0x20 ||
  n == 0x85 || n == 0xA0 || n == 0x1680 || (0x2000 ≤ n && n ≤ 0x200A) ||
  n == 0x2028 || n == 0x2029 || n == 0x202F || n == 0x205F || n == 0x3000

/-- Go `strings.TrimSpace`: the string without its leading and trailing white space. -/
def trimSpace (s : String) : String :=
  String.mk ((s.data.dropWhile isSpace).reverse.dropWhile isSpace).reverse

/-- A Go `[]string`; `none` is the nil slice. -/
abbrev StrSlice := Option (List String)

/-- Go `len` on a slice. -/
def len {α : Type} : Option (List α) → Nat
  | none => 0
  | some l => l.length

/-- The elements a Go `for _, x := range s` visits. -/
def elems {α : Type} : Option (List α) → List α
  | none => []
  | some l => l

/-- Go `append(s, x)`. -/
def append {α : Type} (s : Option (List α)) (x : α) : Option (List α) :=
  some (elems s ++ [x])

/-! ## Errors -/

/-- A Go `error` value. -/
inductive Error where
  /-- The result of `usage(msg)`. -/
  | usage (msg : String)
  /-- The result of `fmt.Errorf` with a format that has no `%w`; `msg` is the rendered text. -/
  | errorf (msg : String)
  /-- The result of `fmt.Errorf(lead + "%w", cause)`. -/
  | wrap (lead : String) (cause : Error)
  /-- An error produced outside this file (remote service, transport, helpers). -/
  | other (msg : String)
  deriving DecidableEq, Repr

deriving instance DecidableEq for Except

/-! ## The calendar API types the code touches -/

/-- The struct `calendar.EventDateTime`. -/
structure EventDateTime where
  Date : String
  DateTime : String
  TimeZone : String
  deriving DecidableEq, Repr

/-- The struct `calendar.EventAttendee`, with the fields a command line can set. -/
structure EventAttendee where
  Email : String
  DisplayName : String
  ResponseStatus : String
  Optional : Bool
  deriving DecidableEq, Repr

/-- The struct `calendar.EventReminder`. -/
structure EventReminder where
  Method : String
  Minutes : Int
  deriving DecidableEq, Repr

/-- The struct `calendar.EventReminders`. -/
structure EventReminders where
  Overrides : Option (List EventReminder)
  UseDefault : Bool
  deriving DecidableEq, Repr

/-- The struct `calendar.EventExtendedProperties`; a Go map is an association list. -/
structure EventExtendedProperties where
  Private : List (String × String)
  Shared : List (String × String)
  deriving DecidableEq, Repr

/-- The struct `calendar.Event`, with the fields `calendar_edit.go` reads or writes. -/
structure Event where
  Summary : String
  Description : String
  Location : String
  Start : Option EventDateTime
  End : Option EventDateTime
  Attendees : Option (List EventAttendee)
  Recurrence : StrSlice
  Reminders : Option EventReminders
  ColorId : String
  Visibility : String
  Transparency : String
  GuestsCanInviteOthers : Option Bool
  GuestsCanModify : Bool
  GuestsCanSeeOtherGuests : Option Bool
  ExtendedProperties : Option EventExtendedProperties
  ForceSendFields : StrSlice
  deriving DecidableEq, Repr

/-- The zero value `&calendar.Event{}`. -/
def Event.zero : Event :=
  ⟨"", "", "", none, none, none, none, none, "", "", "", none, false, none, none, none⟩

/-! ## The remote service and the trace of calls -/

/-- A call to the remote service. -/
inductive Call where
  /-- `svc.Events.Get(calendarID, eventID).Do()`. -/
  | get (calendarID eventID : String)
  /-- The instance lookup `resolveRecurringInstanceID(ctx, svc, calendarID, eventID, originalStartTime)`. -/
  | lookup (calendarID eventID originalStartTime : String)
  /-- `svc.Events.Patch(calendarID, eventID, body).Do()`. -/
  | patch (calendarID eventID : String) (body : Event)
  /-- `svc.Events.Delete(calendarID, eventID).Do()`. -/
  | delete (calendarID eventID : String)
  deriving DecidableEq, Repr

/-- One line of the trace: the call and whether it returned without error. -/
structure Entry where
  call : Call
  ok : Bool
  deriving DecidableEq, Repr

/-- The remote service `*calendar.Service`.  Every operation is given the trace of
the calls made so far, so its answer may change from one call to the next.
`resolveRecurringInstanceID` is a helper of the repository that is not among the
source files; it is taken as one more operation of the service. -/
structure Service where
  get : List Entry → String → String → Except Error Event
  resolveRecurringInstanceID : List Entry → String → String → String → Except Error String
  patch : List Entry → String → String → Event → Except Error Event
  delete : List Entry → String → String → Option Error

/-- Modelled from the spec: the constants `scopeSingle`, `scopeFuture`, `scopeAll`
are declared outside the source files; the spec and the error text of the scope
switch name the three scopes `single`, `future` and `all`. -/
def scopeSingle : String := "single"

/-- Modelled from the spec: see `scopeSingle`. -/
def scopeFuture : String := "future"

/-- Modelled from the spec: see `scopeSingle`. -/
def scopeAll : String := "all"

/-! ## `applyUpdateScope` -/

/-- The three results of `applyUpdateScope`, the patch as the call left it and the
trace after the call. -/
structure ScopeResult where
  targetEventID : String
  parentRecurrence : StrSlice
  err : Option Error
  patch : Event
  trace : List Entry

/-- Lines 377-385: the patch has a non-empty `Recurrence`, or `"Recurrence"` is one
of its `ForceSendFields`. -/
def recurrenceOverride (patch : Event) : Bool :=
  decide (len patch.Recurrence > 0) || (elems patch.ForceSendFields).any (fun field => field == "Recurrence")

/-- Lines 391-399 of `applyUpdateScope`: the instance lookup and the final return. -/
def applyUpdateScopeInstance (svc : Service) (calendarID eventID scope originalStartTime : String)
    (parentRecurrence : StrSlice) (patch : Event) (tr : List Entry) : ScopeResult :=
  if scope = scopeSingle ∨ scope = scopeFuture then
    match svc.resolveRecurringInstanceID tr calendarID eventID originalStartTime with
    | .error err =>
      ⟨"", none, some err, patch, tr ++ [⟨.lookup calendarID eventID originalStartTime, false⟩]⟩
    | .ok instanceID =>
      ⟨instanceID, parentRecurrence, none, patch,
        tr ++ [⟨.lookup calendarID eventID originalStartTime, true⟩]⟩
  else
    ⟨eventID, parentRecurrence, none, patch, tr⟩

/-- The function `applyUpdateScope` (lines 364-400), started with trace `tr`. -/
def applyUpdateScope (svc : Service) (calendarID eventID scope originalStartTime : String)
    (patch : Event) (tr : List Entry) : ScopeResult :=
  if scope = scopeFuture then
    match svc.get tr calendarID eventID with
    | .error err => ⟨"", none, some err, patch, tr ++ [⟨.get calendarID eventID, false⟩]⟩
    | .ok parent =>
      if len parent.Recurrence = 0 then
        ⟨"", none, some (.errorf ("event " ++ eventID ++ " is not a recurring event")), patch,
          tr ++ [⟨.get calendarID eventID, true⟩]⟩
      else
        applyUpdateScopeInstance svc calendarID eventID scope originalStartTime parent.Recurrence
          (if recurrenceOverride patch then patch else { patch with Recurrence := parent.Recurrence })
          (tr ++ [⟨.get calendarID eventID, true⟩])
  else
    applyUpdateScopeInstance svc calendarID eventID scope originalStartTime none patch tr

/-! ## The commands -/

/-- What a command hands to the output layer on success. -/
inductive Output where
  /-- `outfmt.WriteJSON(os.Stdout, map[string]any("event": event))`. -/
  | jsonEvent (event : Event)
  /-- `printCalendarEvent(u, event)`. -/
  | printedEvent (event : Event)
  /-- `outfmt.WriteJSON` of the `deleted`, `calendarId`, `eventId` map. -/
  | jsonDeleted (calendarId eventId : String)
  /-- The three `Printf` lines of the delete command. -/
  | printedDeleted (calendarId eventId : String)
  deriving DecidableEq, Repr

/-- The surroundings of a command run: the parsed command line (`kctx`, `flags`,
`ctx`), the Go library functions that are not spelled out here and the helpers of
the repository that are not among the source files. -/
structure Env where
  /-- Go `strings.ToLower`. -/
  toLower : String → String
  /-- The rendering of a string by the `%q` verb of `fmt`. -/
  quote : String → String
  /-- The helper `requireAccount(flags)`. -/
  requireAccount : Except Error String
  /-- The helper `flagProvided(kctx, name)`. -/
  flagProvided : String → Bool
  /-- The helper `newCalendarService(ctx, account)`. -/
  newCalendarService : String → Except Error Service
  /-- The helper `confirmDestructive(ctx, flags, message)`. -/
  confirmDestructive : String → Option Error
  /-- The helper `outfmt.IsJSON(ctx)`. -/
  isJSON : Bool
  /-- The error result of `outfmt.WriteJSON(os.Stdout, _)`. -/
  writeJSON : Output → Option Error
  /-- The helper `truncateRecurrence(rules, originalStartTime)`. -/
  truncateRecurrence : StrSlice → String → Except Error StrSlice
  /-- The helper `mergeAttendees(existing, addCSV)`. -/
  mergeAttendees : Option (List EventAttendee) → String → Option (List EventAttendee)
  /-- The helper `buildRecurrence(rules)`. -/
  buildRecurrence : StrSlice → StrSlice
  /-- The helper `buildReminders(reminders)`. -/
  buildReminders : StrSlice → Except Error (Option EventReminders)
  /-- The helper `validateColorId`. -/
  validateColorId : String → Except Error String
  /-- The helper `validateVisibility`. -/
  validateVisibility : String → Except Error String
  /-- The helper `validateTransparency`. -/
  validateTransparency : String → Except Error String
  /-- The helper `buildEventDateTime(value, allDay)`. -/
  buildEventDateTime : String → Bool → Option EventDateTime
  /-- The helper `buildAttendees(csv)`. -/
  buildAttendees : String → Option (List EventAttendee)
  /-- The helper `buildExtendedProperties(privateProps, sharedProps)`. -/
  buildExtendedProperties : StrSlice → StrSlice → Option EventExtendedProperties

/-- The result of a command run: the error returned (`none` is `nil`), whether
`newCalendarService` was called, the trace of remote calls, and the output. -/
structure RunResult where
  err : Option Error
  serviceRequested : Bool
  trace : List Entry
  out : Option Output

/-- A return before `newCalendarService` is reached. -/
def RunResult.early (err : Error) : RunResult := ⟨some err, false, [], none⟩

/-- Lines 176-179 and 433-436: the scope flag lowercased and trimmed, `""` read as `all`. -/
def normalizeScope (env : Env) (scopeFlag : String) : String :=
  let scope := trimSpace (env.toLower scopeFlag)
  if scope = "" then scopeAll else scope

/-- Lines 180-192 and 437-449: the `switch scope` of both commands, on the
normalised scope; `none` when the switch falls through to the rest of `Run`. -/
def checkScope (env : Env) (scope originalStartTime : String) : Option Error :=
  if scope = scopeSingle then
    if trimSpace originalStartTime = "" then
      some (.usage "--original-start required when --scope=single")
    else none
  else if scope = scopeFuture then
    if trimSpace originalStartTime = "" then
      some (.usage "--original-start required when --scope=future")
    else none
  else if scope = scopeAll then none
  else some (.errorf ("invalid scope: " ++ env.quote scope ++ " (must be single, future, or all)"))

/-- The struct `CalendarUpdateCmd`. -/
structure CalendarUpdateCmd where
  CalendarID : String
  EventID : String
  Summary : String
  From : String
  To : String
  Description : String
  Location : String
  Attendees : String
  AddAttendee : String
  AllDay : Bool
  Recurrence : StrSlice
  Reminders : StrSlice
  ColorId : String
  Visibility : String
  Transparency : String
  GuestsCanInviteOthers : Option Bool
  GuestsCanModify : Option Bool
  GuestsCanSeeOthers : Option Bool
  Scope : String
  OriginalStartTime : String
  PrivateProps : StrSlice
  SharedProps : StrSlice

/-- One `if flagProvided(kctx, name) ( ... changed = true )` block of
`buildUpdatePatch`, on the pair of `patch` and `changed`: when the flag was given the
body runs on the patch and `changed` becomes true, and an error of the body is returned. -/
def ifProvided (provided : Bool) (body : Event → Except Error Event) (s : Event × Bool) :
    Except Error (Event × Bool) :=
  if provided then
    match body s.1 with
    | .error err => .error err
    | .ok patch => .ok (patch, true)
  else .ok s

/-- The method `CalendarUpdateCmd.buildUpdatePatch` (lines 260-362): the patch and
the `changed` flag, or the error. -/
def CalendarUpdateCmd.buildUpdatePatch (env : Env) (c : CalendarUpdateCmd) :
    Except Error (Event × Bool) := do
  let s := (Event.zero, false)
  let s ← ifProvided (env.flagProvided "summary")
    (fun patch => .ok { patch with Summary := trimSpace c.Summary }) s
  let s ← ifProvided (env.flagProvided "description")
    (fun patch => .ok { patch with Description := trimSpace c.Description }) s
  let s ← ifProvided (env.flagProvided "location")
    (fun patch => .ok { patch with Location := trimSpace c.Location }) s
  let s ← ifProvided (env.flagProvided "from")
    (fun patch => .ok { patch with Start := env.buildEventDateTime c.From c.AllDay }) s
  let s ← ifProvided (env.flagProvided "to")
    (fun patch => .ok { patch with End := env.buildEventDateTime c.To c.AllDay }) s
  let s ← ifProvided (env.flagProvided "attendees")
    (fun patch => .ok { patch with Attendees := env.buildAttendees c.Attendees }) s
  let s ← ifProvided (env.flagProvided "rrule")
    (fun patch =>
      if env.buildRecurrence c.Recurrence = none then
        .ok { patch with Recurrence := some [],
                         ForceSendFields := append patch.ForceSendFields "Recurrence" }
      else
        .ok { patch with Recurrence := env.buildRecurrence c.Recurrence }) s
  let s ← ifProvided (env.flagProvided "reminder")
    (fun patch =>
      match env.buildReminders c.Reminders with
      | .error err => .error err
      | .ok none =>
        .ok { patch with Reminders := some ⟨none, true⟩,
                         ForceSendFields := append patch.ForceSendFields "Reminders" }
      | .ok (some reminders) => .ok { patch with Reminders := some reminders }) s
  let s ← ifProvided (env.flagProvided "event-color")
    (fun patch =>
      match env.validateColorId c.ColorId with
      | .error err => .error err
      | .ok colorId => .ok { patch with ColorId := colorId }) s
  let s ← ifProvided (env.flagProvided "visibility")
    (fun patch =>
      match env.validateVisibility c.Visibility with
      | .error err => .error err
      | .ok visibility => .ok { patch with Visibility := visibility }) s
  let s ← ifProvided (env.flagProvided "transparency")
    (fun patch =>
      match env.validateTransparency c.Transparency with
      | .error err => .error err
      | .ok transparency => .ok { patch with Transparency := transparency }) s
  let s ← ifProvided (env.flagProvided "guests-can-invite")
    (fun patch =>
      .ok { (match c.GuestsCanInviteOthers with
              | some b => { patch with GuestsCanInviteOthers := some b }
              | none => patch) with
            ForceSendFields := append patch.ForceSendFields "GuestsCanInviteOthers" }) s
  let s ← ifProvided (env.flagProvided "guests-can-modify")
    (fun patch =>
      .ok { (match c.GuestsCanModify with
              | some b => { patch with GuestsCanModify := b }
              | none => patch) with
            ForceSendFields := append patch.ForceSendFields "GuestsCanModify" }) s
  let s ← ifProvided (env.flagProvided "guests-can-see-others")
    (fun patch =>
      .ok { (match c.GuestsCanSeeOthers with
              | some b => { patch with GuestsCanSeeOtherGuests := some b }
              | none => patch) with
            ForceSendFields := append patch.ForceSendFields "GuestsCanSeeOtherGuests" }) s
  let s ← ifProvided (env.flagProvided "private-prop" || env.flagProvided "shared-prop")
    (fun patch =>
      .ok { patch with
            ExtendedProperties := env.buildExtendedProperties c.PrivateProps c.SharedProps }) s
  return s

/-- The function `truncateParentRecurrence` (lines 402-409), started with trace `tr`:
the error returned and the trace after the call. -/
def truncateParentRecurrence (env : Env) (svc : Service) (calendarID eventID : String)
    (parentRecurrence : StrSlice) (originalStartTime : String) (tr : List Entry) :
    Option Error × List Entry :=
  match env.truncateRecurrence parentRecurrence originalStartTime with
  | .error err => (some err, tr)
  | .ok truncated =>
    match svc.patch tr calendarID eventID { Event.zero with Recurrence := truncated } with
    | .error err =>
      (some err, tr ++ [⟨.patch calendarID eventID { Event.zero with Recurrence := truncated }, false⟩])
    | .ok _ =>
      (none, tr ++ [⟨.patch calendarID eventID { Event.zero with Recurrence := truncated }, true⟩])

/-- Lines 253-257 of `CalendarUpdateCmd.Run`: the output of the updated event. -/
def CalendarUpdateCmd.report (env : Env) (updated : Event) (tr : List Entry) : RunResult :=
  if env.isJSON then ⟨env.writeJSON (.jsonEvent updated), true, tr, some (.jsonEvent updated)⟩
  else ⟨none, true, tr, some (.printedEvent updated)⟩

/-- Lines 235-257 of `CalendarUpdateCmd.Run`: the `changed` check, `applyUpdateScope`,
the patch of the target and, for scope `future`, the truncation of the parent. -/
def CalendarUpdateCmd.runScoped (env : Env) (c : CalendarUpdateCmd) (svc : Service)
    (calendarID eventID scope : String) (patch : Event) (changed : Bool) (tr : List Entry) :
    RunResult :=
  if !changed then ⟨some (.usage "no updates provided"), true, tr, none⟩
  else
    let r := applyUpdateScope svc calendarID eventID scope c.OriginalStartTime patch tr
    match r.err with
    | some err => ⟨some err, true, r.trace, none⟩
    | none =>
      match svc.patch r.trace calendarID r.targetEventID r.patch with
      | .error err =>
        ⟨some err, true, r.trace ++ [⟨.patch calendarID r.targetEventID r.patch, false⟩], none⟩
      | .ok updated =>
        if scope = scopeFuture then
          match truncateParentRecurrence env svc calendarID eventID r.parentRecurrence
              c.OriginalStartTime (r.trace ++ [⟨.patch calendarID r.targetEventID r.patch, true⟩]) with
          | (some err, tr3) => ⟨some err, true, tr3, none⟩
          | (none, tr3) => CalendarUpdateCmd.report env updated tr3
        else
          CalendarUpdateCmd.report env updated
            (r.trace ++ [⟨.patch calendarID r.targetEventID r.patch, true⟩])

/-- Lines 225-257 of `CalendarUpdateCmd.Run`: everything after the service exists. -/
def CalendarUpdateCmd.runWithService (env : Env) (c : CalendarUpdateCmd) (svc : Service)
    (calendarID eventID scope : String) (patch : Event) (changed : Bool) : RunResult :=
  if env.flagProvided "add-attendee" then
    match svc.get [] calendarID eventID with
    | .error getErr =>
      ⟨some (.wrap "failed to fetch current event: " getErr), true,
        [⟨.get calendarID eventID, false⟩], none⟩
    | .ok existing =>
      c.runScoped env svc calendarID eventID scope
        { patch with Attendees := env.mergeAttendees existing.Attendees c.AddAttendee } true
        [⟨.get calendarID eventID, true⟩]
  else
    c.runScoped env svc calendarID eventID scope patch changed []

/-- The method `CalendarUpdateCmd.Run` (lines 161-258). -/
def CalendarUpdateCmd.Run (env : Env) (c : CalendarUpdateCmd) : RunResult :=
  match env.requireAccount with
  | .error err => .early err
  | .ok account =>
    if trimSpace c.CalendarID = "" then .early (.usage "empty calendarId")
    else if trimSpace c.EventID = "" then .early (.usage "empty eventId")
    else
      match checkScope env (normalizeScope env c.Scope) c.OriginalStartTime with
      | some err => .early err
      | none =>
        if env.flagProvided "all-day" && (!env.flagProvided "from" || !env.flagProvided "to") then
          .early (.usage "when changing --all-day, also provide --from and --to")
        else if env.flagProvided "attendees" && env.flagProvided "add-attendee" then
          .early (.usage "cannot use both --attendees and --add-attendee; use --attendees to replace all, or --add-attendee to add")
        else
          match c.buildUpdatePatch env with
          | .error err => .early err
          | .ok (patch, changed) =>
            if env.flagProvided "add-attendee" && trimSpace c.AddAttendee = "" then
              .early (.usage "empty --add-attendee")
            else if !changed && !env.flagProvided "add-attendee" then
              .early (.usage "no updates provided")
            else
              match env.newCalendarService account with
              | .error err => ⟨some err, true, [], none⟩
              | .ok svc =>
                c.runWithService env svc (trimSpace c.CalendarID) (trimSpace c.EventID)
                  (normalizeScope env c.Scope) patch changed

/-- The struct `CalendarDeleteCmd`. -/
structure CalendarDeleteCmd where
  CalendarID : String
  EventID : String
  Scope : String
  OriginalStartTime : String

/-- Lines 451-457 of `CalendarDeleteCmd.Run`: the confirmation message.  The source
assigns the plain message, then the `single` one, then the `future` one; the last
assignment that applies is the one that stays. -/
def CalendarDeleteCmd.confirmMessage (c : CalendarDeleteCmd) (calendarID eventID scope : String) :
    String :=
  if scope = scopeFuture then
    "delete event " ++ eventID ++ " (instance start " ++ c.OriginalStartTime ++
      ") and all following from calendar " ++ calendarID
  else if scope = scopeSingle then
    "delete event " ++ eventID ++ " (instance start " ++ c.OriginalStartTime ++
      ") from calendar " ++ calendarID
  else
    "delete event " ++ eventID ++ " from calendar " ++ calendarID

/-- Lines 500-510 of `CalendarDeleteCmd.Run`: the output of the deletion. -/
def CalendarDeleteCmd.report (env : Env) (calendarID targetEventID : String) (tr : List Entry) :
    RunResult :=
  if env.isJSON then
    ⟨env.writeJSON (.jsonDeleted calendarID targetEventID), true, tr,
      some (.jsonDeleted calendarID targetEventID)⟩
  else ⟨none, true, tr, some (.printedDeleted calendarID targetEventID)⟩

/-- Lines 487-510 of `CalendarDeleteCmd.Run`: the delete of the target and, for scope
`future`, the truncation of the parent. -/
def CalendarDeleteCmd.deleteTarget (env : Env) (c : CalendarDeleteCmd) (svc : Service)
    (calendarID eventID scope targetEventID : String) (parentRecurrence : StrSlice)
    (tr : List Entry) : RunResult :=
  match svc.delete tr calendarID targetEventID with
  | some err => ⟨some err, true, tr ++ [⟨.delete calendarID targetEventID, false⟩], none⟩
  | none =>
    if scope = scopeFuture then
      match env.truncateRecurrence parentRecurrence c.OriginalStartTime with
      | .error truncateErr =>
        ⟨some truncateErr, true, tr ++ [⟨.delete calendarID targetEventID, true⟩], none⟩
      | .ok truncated =>
        match svc.patch (tr ++ [⟨.delete calendarID targetEventID, true⟩]) calendarID eventID
            { Event.zero with Recurrence := truncated } with
        | .error patchErr =>
          ⟨some patchErr, true,
            tr ++ [⟨.delete calendarID targetEventID, true⟩] ++
              [⟨.patch calendarID eventID { Event.zero with Recurrence := truncated }, false⟩], none⟩
        | .ok _ =>
          CalendarDeleteCmd.report env calendarID targetEventID
            (tr ++ [⟨.delete calendarID targetEventID, true⟩] ++
              [⟨.patch calendarID eventID { Event.zero with Recurrence := truncated }, true⟩])
    else
      CalendarDeleteCmd.report env calendarID targetEventID
        (tr ++ [⟨.delete calendarID targetEventID, true⟩])

/-- Lines 479-510 of `CalendarDeleteCmd.Run`: the instance lookup, then the delete. -/
def CalendarDeleteCmd.resolveTarget (env : Env) (c : CalendarDeleteCmd) (svc : Service)
    (calendarID eventID scope : String) (parentRecurrence : StrSlice) (tr : List Entry) :
    RunResult :=
  if scope = scopeSingle ∨ scope = scopeFuture then
    match svc.resolveRecurringInstanceID tr calendarID eventID c.OriginalStartTime with
    | .error resolveErr =>
      ⟨some resolveErr, true, tr ++ [⟨.lookup calendarID eventID c.OriginalStartTime, false⟩], none⟩
    | .ok instanceID =>
      c.deleteTarget env svc calendarID eventID scope instanceID parentRecurrence
        (tr ++ [⟨.lookup calendarID eventID c.OriginalStartTime, true⟩])
  else
    c.deleteTarget env svc calendarID eventID scope eventID parentRecurrence tr

/-- Lines 467-510 of `CalendarDeleteCmd.Run`: everything after the service exists. -/
def CalendarDeleteCmd.runWithService (env : Env) (c : CalendarDeleteCmd) (svc : Service)
    (calendarID eventID scope : String) : RunResult :=
  if scope = scopeFuture then
    match svc.get [] calendarID eventID with
    | .error getErr => ⟨some getErr, true, [⟨.get calendarID eventID, false⟩], none⟩
    | .ok parent =>
      if len parent.Recurrence = 0 then
        ⟨some (.errorf ("event " ++ eventID ++ " is not a recurring event")), true,
          [⟨.get calendarID eventID, true⟩], none⟩
      else
        c.resolveTarget env svc calendarID eventID scope parent.Recurrence
          [⟨.get calendarID eventID, true⟩]
  else
    c.resolveTarget env svc calendarID eventID scope none []

/-- The method `CalendarDeleteCmd.Run` (lines 418-511). -/
def CalendarDeleteCmd.Run (env : Env) (c : CalendarDeleteCmd) : RunResult :=
  match env.requireAccount with
  | .error err => .early err
  | .ok account =>
    if trimSpace c.CalendarID = "" then .early (.usage "empty calendarId")
    else if trimSpace c.EventID = "" then .early (.usage "empty eventId")
    else
      match checkScope env (normalizeScope env c.Scope) c.OriginalStartTime with
      | some err => .early err
      | none =>
        match env.confirmDestructive (c.confirmMessage (trimSpace c.CalendarID)
            (trimSpace c.EventID) (normalizeScope env c.Scope)) with
        | some confirmErr => .early confirmErr
        | none =>
          match env.newCalendarService account with
          | .error err => ⟨some err, true, [], none⟩
          | .ok svc =>
            c.runWithService env svc (trimSpace c.CalendarID) (trimSpace c.EventID)
              (normalizeScope env c.Scope)

/-! ## Vocabulary of the statements -/

/-- A call that changes the remote calendar: a patch or a delete. -/
def Call.isMutating : Call → Bool
  | .patch _ _ _ => true
  | .delete _ _ => true
  | _ => false

/-- The operation of a call and the event id it is addressed to. -/
def Call.target : Call → String × String
  | .get _ eventID => ("get", eventID)
  | .lookup _ eventID _ => ("lookup", eventID)
  | .patch _ eventID _ => ("patch", eventID)
  | .delete _ eventID => ("delete", eventID)

/-- The calls of a trace in order: operation, event id addressed, success. -/
def outline (tr : List Entry) : List ((String × String) × Bool) :=
  tr.map (fun e => (e.call.target, e.ok))

/-- The trace a future-scope run has before the master is fetched: the fetch of the
current event when `--add-attendee` was given (update only), nothing otherwise. -/
def attendeeFetch (addAttendee : Bool) (calendarID eventID : String) : List Entry :=
  if addAttendee then [⟨.get calendarID eventID, true⟩] else []

/-- The shape of a run that stops at the first failed call: every call of the trace
succeeded, or every call but the last succeeded, the last one failed and an error is
returned. -/
def StopsAtFailure (tr : List Entry) (err : Option Error) : Prop :=
  (∀ e ∈ tr, e.ok = true) ∨
    ∃ pre last, tr = pre ++ [last] ∧ (∀ e ∈ pre, e.ok = true) ∧ last.ok = false ∧ err ≠ none

/-! ## Concrete runs -/

/-- ASCII lowercasing, which `strings.ToLower` is on ASCII text. -/
def asciiLower (s : String) : String := String.mk (s.data.map Char.toLower)

/-- The pieces of a line between its semicolons. -/
def splitSemicolon : List Char → List (List Char)
  | [] => [[]]
  | ch :: rest =>
    match splitSemicolon rest with
    | [] => [[]]
    | piece :: pieces => if ch = ';' then [] :: piece :: pieces else (ch :: piece) :: pieces

/-- Modelled from the spec: `truncateRecurrence` is not among the source files.
Section 4.2 of the spec: it fails unless exactly one line of the rule set is the
pattern line (here: starts with `RRULE:`), fails when the cut-off cannot be parsed,
removes the end bound of the pattern line (every `COUNT=` or `UNTIL=` part among the
parts that follow `RRULE:`, the first one included) and appends an `UNTIL=` bound; every
other line passes through.  `untilOf` stands for the parsing of
the cut-off and the formatting of the bound just before it. -/
def truncateRecurrenceModel (untilOf : String → Except Error String) (rules : StrSlice)
    (cutoff : String) : Except Error StrSlice :=
  if ((elems rules).filter (fun line => "RRULE:".data.isPrefixOf line.data)).length ≠ 1 then
    .error (.other "recurrence must contain exactly one RRULE")
  else
    match untilOf cutoff with
    | .error err => .error err
    | .ok bound =>
      .ok (some ((elems rules).map (fun line =>
        if "RRULE:".data.isPrefixOf line.data then
          String.mk ("RRULE:".data ++ List.intercalate [';']
            ((splitSemicolon (line.data.drop "RRULE:".data.length)).filter (fun part =>
              !("UNTIL=".data.isPrefixOf part) && !("COUNT=".data.isPrefixOf part)) ++
              ["UNTIL=".data ++ bound.data]))
        else line)))

/-- The bound for the one cut-off of the scenario of the spec (section 8). -/
def demoUntil (cutoff : String) : Except Error String :=
  if cutoff = "2024-03-04T09:00:00Z" then .ok "20240303T235959Z"
  else .error (.other "cannot parse original start")

/-- A weekly series master. -/
def weeklyMaster : Event :=
  { Event.zero with Summary := "standup", Recurrence := some ["RRULE:FREQ=WEEKLY;BYDAY=MO"] }

/-- A service that answers every call: the master is `weeklyMaster`, the instance
of `eventID` at `start` has the id `eventID_start`. -/
def demoService : Service where
  get := fun _ _ _ => .ok weeklyMaster
  resolveRecurringInstanceID := fun _ _ eventID start => .ok (eventID ++ "_" ++ start)
  patch := fun _ _ _ body => .ok body
  delete := fun _ _ _ => none

/-- A command line that gives the flags in `provided`, against `svc`. -/
def demoEnv (provided : List String) (svc : Service) : Env where
  toLower := asciiLower
  quote := fun s => "\"" ++ s ++ "\""
  requireAccount := .ok "me@example.com"
  flagProvided := fun name => provided.contains name
  newCalendarService := fun _ => .ok svc
  confirmDestructive := fun _ => none
  isJSON := false
  writeJSON := fun _ => none
  truncateRecurrence := truncateRecurrenceModel demoUntil
  mergeAttendees := fun existing _ => existing
  buildRecurrence := fun rules => if len rules = 0 then none else rules
  buildReminders := fun _ => .ok none
  validateColorId := fun s => .ok s
  validateVisibility := fun s => .ok s
  validateTransparency := fun s => .ok s
  buildEventDateTime := fun _ _ => none
  buildAttendees := fun _ => none
  buildExtendedProperties := fun _ _ => none

/-- The command `calendar update primary E1` with the given scope, original start
and `--rrule` values, and the summary `moved`. -/
def demoUpdate (scope originalStart : String) (rrule : StrSlice) : CalendarUpdateCmd :=
  ⟨"primary", " E1 ", "moved", "", "", "", "", "", "a@example.com", false, rrule, none, "", "", "",
    none, none, none, scope, originalStart, none, none⟩

/-- The command `calendar delete primary E1` with the given scope and original start. -/
def demoDelete (scope originalStart : String) : CalendarDeleteCmd :=
  ⟨"primary", " E1 ", scope, originalStart⟩

/-- A patch that only sets the summary. -/
def summaryPatch : Event := { Event.zero with Summary := "moved" }

/-- A patch that replaces the recurrence by a daily rule. -/
def dailyPatch : Event :=
  { Event.zero with Summary := "moved", Recurrence := some ["RRULE:FREQ=DAILY"] }

/-- A service whose master recurs on listed dates only: its rule set has no pattern line. -/
def rdateService : Service :=
  { demoService with
    get := fun _ _ _ => .ok { Event.zero with Recurrence := some ["RDATE:20240311T090000Z"] } }

/-- The error of a remote call that found the backend unavailable. -/
def unavailable : Error := .other "googleapi: Error 503: Backend Error"

/-- A service whose instance lookup fails. -/
def lookupDownService : Service :=
  { demoService with resolveRecurringInstanceID := fun _ _ _ _ => .error unavailable }

/-- A service whose master is not recurring. -/
def plainService : Service :=
  { demoService with get := fun _ _ _ => .ok { Event.zero with Summary := "lunch" } }

/-! ## Shared lemmas -/

theorem scopeAll_ne_scopeFuture : scopeAll ≠ scopeFuture := by decide

theorem scopeAll_ne_scopeSingle : scopeAll ≠ scopeSingle := by decide

theorem scopeSingle_ne_scopeFuture : scopeSingle ≠ scopeFuture := by decide

/-- The override test of lines 377-385, in words. -/
theorem recurrenceOverride_iff (patch : Event) :
    recurrenceOverride patch = true ↔
      (len patch.Recurrence > 0 ∨ "Recurrence" ∈ elems patch.ForceSendFields) := by
  unfold recurrenceOverride
  simp only [Bool.or_eq_true, decide_eq_true_eq, List.any_eq_true, beq_iff_eq]
  constructor
  · rintro (h | ⟨x, hx, rfl⟩)
    · exact Or.inl h
    · exact Or.inr hx
  · rintro (h | h)
    · exact Or.inl h
    · exact Or.inr ⟨_, h, rfl⟩

/-- The instance-lookup half of `applyUpdateScope` never touches the patch. -/
theorem applyUpdateScopeInstance_patch (svc : Service)
    (calendarID eventID scope originalStartTime : String) (parentRecurrence : StrSlice)
    (patch : Event) (tr : List Entry) :
    (applyUpdateScopeInstance svc calendarID eventID scope originalStartTime parentRecurrence
      patch tr).patch = patch := by
  unfold applyUpdateScopeInstance
  split
  · split <;> rfl
  · rfl

theorem ifProvided_ok_iff (provided : Bool) (body : Event → Except Error Event)
    (s s' : Event × Bool) :
    ifProvided provided body s = .ok s' ↔
      (provided = true ∧ ∃ p, body s.1 = .ok p ∧ s' = (p, true)) ∨ (provided = false ∧ s' = s) := by
  unfold ifProvided
  cases provided
  · simp [eq_comm]
  · cases h : body s.1 <;> simp [eq_comm]

/-- A property of the patch that every body keeps is kept by the block. -/
theorem ifProvided_keeps (Q : Event → Prop) (provided : Bool) (body : Event → Except Error Event)
    (s s' : Event × Bool) (hbody : ∀ p p', body p = .ok p' → Q p → Q p')
    (h : ifProvided provided body s = .ok s') (hq : Q s.1) : Q s'.1 := by
  rcases (ifProvided_ok_iff provided body s s').1 h with ⟨_, p, hp, rfl⟩ | ⟨_, rfl⟩
  · exact hbody _ _ hp hq
  · exact hq

theorem except_bind_ok {α β : Type} (x : Except Error α) (f : α → Except Error β) (b : β) :
    (x >>= f) = .ok b ↔ ∃ a, x = .ok a ∧ f a = .ok b := by
  cases x <;> simp [bind, Except.bind]

theorem mem_elems_append {α : Type} (s : Option (List α)) (x y : α) (h : x ∈ elems s) :
    x ∈ elems (append s y) := by
  simp [append, elems] at *
  exact Or.inl h

/-- The patch `buildUpdatePatch` builds from a given `--rrule` specifies recurrence in
the sense of `applyUpdateScope`: when `buildRecurrence` returns nil (the explicit clear)
`Recurrence` is among its `ForceSendFields`, and when it returns a non-empty list that
list is its `Recurrence`. -/
theorem buildUpdatePatch_rrule_specifies_recurrence (env : Env) (c : CalendarUpdateCmd)
    (patch : Event) (changed : Bool) (hflag : env.flagProvided "rrule" = true)
    (hrules : env.buildRecurrence c.Recurrence = none ∨ len (env.buildRecurrence c.Recurrence) > 0)
    (hbuild : c.buildUpdatePatch env = .ok (patch, changed)) :
    recurrenceOverride patch = true := by
  unfold CalendarUpdateCmd.buildUpdatePatch at hbuild
  simp only [except_bind_ok] at hbuild
  obtain ⟨s1, -, s2, -, s3, -, s4, -, s5, -, s6, -, s7, h7, s8, h8, s9, h9, s10, h10, s11, h11,
    s12, h12, s13, h13, s14, h14, s15, h15, hret⟩ := hbuild
  have hs : s15 = (patch, changed) := by
    simpa [pure, Except.pure] using hret
  have q7 : recurrenceOverride s7.1 = true := by
    rcases (ifProvided_ok_iff _ _ _ _).1 h7 with ⟨_, p, hp, rfl⟩ | ⟨hf, _⟩
    · rcases hrules with hr | hr
      · simp only [hr, if_true, Except.ok.injEq] at hp
        subst hp
        rw [recurrenceOverride_iff]
        right
        simp [append, elems]
      · have hne : env.buildRecurrence c.Recurrence ≠ none := by
          intro h0
          rw [h0] at hr
          simp [len] at hr
        simp only [hne, if_false, Except.ok.injEq] at hp
        subst hp
        rw [recurrenceOverride_iff]
        left
        exact hr
    · rw [hflag] at hf
      cases hf
  have step : ∀ (provided : Bool) (body : Event → Except Error Event) (s s' : Event × Bool),
      (∀ p p', body p = .ok p' →
        (p'.Recurrence = p.Recurrence ∧
          (p'.ForceSendFields = p.ForceSendFields ∨
            ∃ f, p'.ForceSendFields = append p.ForceSendFields f))) →
      ifProvided provided body s = .ok s' → recurrenceOverride s.1 = true →
      recurrenceOverride s'.1 = true := by
    intro provided body s s' hb h hq
    refine ifProvided_keeps (fun p => recurrenceOverride p = true) provided body s s' ?_ h hq
    intro p p' hp hq
    obtain ⟨hr, hf⟩ := hb p p' hp
    rw [recurrenceOverride_iff] at hq ⊢
    rcases hq with hq | hq
    · left
      rw [hr]
      exact hq
    · right
      rcases hf with hf | ⟨f, hf⟩
      · rw [hf]
        exact hq
      · rw [hf]
        exact mem_elems_append _ _ _ hq
  have q8 := step _ _ _ _ (by
    intro p p' hp
    split at hp <;> simp at hp <;> subst hp <;> simp) h8 q7
  have q9 := step _ _ _ _ (by
    intro p p' hp
    split at hp <;> simp at hp
    subst hp
    simp) h9 q8
  have q10 := step _ _ _ _ (by
    intro p p' hp
    split at hp <;> simp at hp
    subst hp
    simp) h10 q9
  have q11 := step _ _ _ _ (by
    intro p p' hp
    split at hp <;> simp at hp
    subst hp
    simp) h11 q10
  have q12 := step _ _ _ _ (by
    intro p p' hp
    simp at hp
    subst hp
    cases c.GuestsCanInviteOthers <;> simp) h12 q11
  have q13 := step _ _ _ _ (by
    intro p p' hp
    simp at hp
    subst hp
    cases c.GuestsCanModify <;> simp) h13 q12
  have q14 := step _ _ _ _ (by
    intro p p' hp
    simp at hp
    subst hp
    cases c.GuestsCanSeeOthers <;> simp) h14 q13
  have q15 := step _ _ _ _ (by
    intro p p' hp
    simp at hp
    subst hp
    simp) h15 q14
  rw [hs] at q15
  exact q15


/-- A delete command that asked for the service passed the scope check, and the rest
of its run is `runWithService` on the trimmed ids and the normalised scope. -/
theorem delete_run_of_serviceRequested (env : Env) (c : CalendarDeleteCmd) (account : String)
    (svc : Service) (hacc : env.requireAccount = .ok account)
    (hsvc : env.newCalendarService account = .ok svc)
    (hreq : (c.Run env).serviceRequested = true) :
    checkScope env (normalizeScope env c.Scope) c.OriginalStartTime = none ∧
      c.Run env = c.runWithService env svc (trimSpace c.CalendarID) (trimSpace c.EventID)
        (normalizeScope env c.Scope) := by
  unfold CalendarDeleteCmd.Run at hreq ⊢
  simp only [hacc] at hreq ⊢
  by_cases h1 : trimSpace c.CalendarID = ""
  · simp [h1, RunResult.early] at hreq
  by_cases h2 : trimSpace c.EventID = ""
  · simp [h1, h2, RunResult.early] at hreq
  simp only [h1, h2, if_false] at hreq ⊢
  cases hchk : checkScope env (normalizeScope env c.Scope) c.OriginalStartTime with
  | some err => simp [hchk, RunResult.early] at hreq
  | none =>
    simp only [hchk] at hreq ⊢
    cases hconf : env.confirmDestructive (c.confirmMessage (trimSpace c.CalendarID)
        (trimSpace c.EventID) (normalizeScope env c.Scope)) with
    | some err => simp [hconf, RunResult.early] at hreq
    | none => simp only [hsvc, true_and]

/-- An update command that asked for the service passed the scope check and built
its patch, and the rest of its run is `runWithService`. -/
theorem update_run_of_serviceRequested (env : Env) (c : CalendarUpdateCmd) (account : String)
    (svc : Service) (hacc : env.requireAccount = .ok account)
    (hsvc : env.newCalendarService account = .ok svc)
    (hreq : (c.Run env).serviceRequested = true) :
    ∃ patch changed, c.buildUpdatePatch env = .ok (patch, changed) ∧
      checkScope env (normalizeScope env c.Scope) c.OriginalStartTime = none ∧
      (changed = true ∨ env.flagProvided "add-attendee" = true) ∧
      c.Run env = c.runWithService env svc (trimSpace c.CalendarID) (trimSpace c.EventID)
        (normalizeScope env c.Scope) patch changed := by
  unfold CalendarUpdateCmd.Run at hreq ⊢
  simp only [hacc] at hreq ⊢
  by_cases h1 : trimSpace c.CalendarID = ""
  · simp [h1, RunResult.early] at hreq
  by_cases h2 : trimSpace c.EventID = ""
  · simp [h1, h2, RunResult.early] at hreq
  simp only [h1, h2, if_false] at hreq ⊢
  cases hchk : checkScope env (normalizeScope env c.Scope) c.OriginalStartTime with
  | some err => simp [hchk, RunResult.early] at hreq
  | none =>
    simp only [hchk] at hreq ⊢
    by_cases h3 : (env.flagProvided "all-day" &&
        (!env.flagProvided "from" || !env.flagProvided "to")) = true
    · simp [h3, RunResult.early] at hreq
    by_cases h4 : (env.flagProvided "attendees" && env.flagProvided "add-attendee") = true
    · simp [h3, h4, RunResult.early] at hreq
    simp only [h3, h4, if_false] at hreq ⊢
    cases hbuild : c.buildUpdatePatch env with
    | error err => simp [hbuild, RunResult.early] at hreq
    | ok built =>
      obtain ⟨patch, changed⟩ := built
      simp only [hbuild] at hreq ⊢
      by_cases h5 : (env.flagProvided "add-attendee" && decide (trimSpace c.AddAttendee = "")) = true
      · simp [h5, RunResult.early] at hreq
      by_cases h6 : (!changed && !env.flagProvided "add-attendee") = true
      · simp [h5, h6, RunResult.early] at hreq
      simp only [h5, h6, if_false, hsvc] at hreq ⊢
      refine ⟨patch, changed, rfl, trivial, ?_, rfl⟩
      cases changed <;> cases hfa : env.flagProvided "add-attendee" <;> simp_all


theorem update_report_serviceRequested (env : Env) (updated : Event) (tr : List Entry) :
    (CalendarUpdateCmd.report env updated tr).serviceRequested = true := by
  unfold CalendarUpdateCmd.report
  split <;> rfl

theorem update_runScoped_serviceRequested (env : Env) (c : CalendarUpdateCmd) (svc : Service)
    (calendarID eventID scope : String) (patch : Event) (changed : Bool) (tr : List Entry) :
    (c.runScoped env svc calendarID eventID scope patch changed tr).serviceRequested = true := by
  unfold CalendarUpdateCmd.runScoped
  split
  · rfl
  · simp only []
    split
    · rfl
    · split
      · rfl
      · split
        · split
          · rfl
          · exact update_report_serviceRequested _ _ _
        · exact update_report_serviceRequested _ _ _

theorem update_runWithService_serviceRequested (env : Env) (c : CalendarUpdateCmd)
    (svc : Service) (calendarID eventID scope : String) (patch : Event) (changed : Bool) :
    (c.runWithService env svc calendarID eventID scope patch changed).serviceRequested = true := by
  unfold CalendarUpdateCmd.runWithService
  split
  · split
    · rfl
    · exact update_runScoped_serviceRequested _ _ _ _ _ _ _ _ _
  · exact update_runScoped_serviceRequested _ _ _ _ _ _ _ _ _

theorem delete_report_serviceRequested (env : Env) (calendarID targetEventID : String)
    (tr : List Entry) :
    (CalendarDeleteCmd.report env calendarID targetEventID tr).serviceRequested = true := by
  unfold CalendarDeleteCmd.report
  split <;> rfl

theorem delete_deleteTarget_serviceRequested (env : Env) (c : CalendarDeleteCmd) (svc : Service)
    (calendarID eventID scope targetEventID : String) (parentRecurrence : StrSlice)
    (tr : List Entry) :
    (c.deleteTarget env svc calendarID eventID scope targetEventID parentRecurrence
      tr).serviceRequested = true := by
  unfold CalendarDeleteCmd.deleteTarget
  split
  · rfl
  · split
    · split
      · rfl
      · split
        · rfl
        · exact delete_report_serviceRequested _ _ _ _
    · exact delete_report_serviceRequested _ _ _ _

theorem delete_resolveTarget_serviceRequested (env : Env) (c : CalendarDeleteCmd) (svc : Service)
    (calendarID eventID scope : String) (parentRecurrence : StrSlice) (tr : List Entry) :
    (c.resolveTarget env svc calendarID eventID scope parentRecurrence tr).serviceRequested
      = true := by
  unfold CalendarDeleteCmd.resolveTarget
  split
  · split
    · rfl
    · exact delete_deleteTarget_serviceRequested _ _ _ _ _ _ _ _ _
  · exact delete_deleteTarget_serviceRequested _ _ _ _ _ _ _ _ _

theorem delete_runWithService_serviceRequested (env : Env) (c : CalendarDeleteCmd)
    (svc : Service) (calendarID eventID scope : String) :
    (c.runWithService env svc calendarID eventID scope).serviceRequested = true := by
  unfold CalendarDeleteCmd.runWithService
  split
  · split
    · rfl
    · split
      · rfl
      · exact delete_resolveTarget_serviceRequested _ _ _ _ _ _ _ _
  · exact delete_resolveTarget_serviceRequested _ _ _ _ _ _ _ _


theorem update_report_trace (env : Env) (updated : Event) (tr : List Entry) :
    (CalendarUpdateCmd.report env updated tr).trace = tr := by
  unfold CalendarUpdateCmd.report
  split <;> rfl

theorem delete_report_trace (env : Env) (calendarID targetEventID : String) (tr : List Entry) :
    (CalendarDeleteCmd.report env calendarID targetEventID tr).trace = tr := by
  unfold CalendarDeleteCmd.report
  split <;> rfl

theorem applyUpdateScope_all_eq (svc : Service) (calendarID eventID originalStartTime : String)
    (patch : Event) (tr : List Entry) :
    applyUpdateScope svc calendarID eventID scopeAll originalStartTime patch tr
      = ⟨eventID, none, none, patch, tr⟩ := by
  simp [applyUpdateScope, applyUpdateScopeInstance, scopeAll_ne_scopeFuture,
    scopeAll_ne_scopeSingle]

theorem applyUpdateScope_single_eq (svc : Service) (calendarID eventID originalStartTime : String)
    (patch : Event) (tr : List Entry) :
    applyUpdateScope svc calendarID eventID scopeSingle originalStartTime patch tr
      = match svc.resolveRecurringInstanceID tr calendarID eventID originalStartTime with
        | .error err =>
          ⟨"", none, some err, patch, tr ++ [⟨.lookup calendarID eventID originalStartTime, false⟩]⟩
        | .ok instanceID =>
          ⟨instanceID, none, none, patch,
            tr ++ [⟨.lookup calendarID eventID originalStartTime, true⟩]⟩ := by
  simp [applyUpdateScope, applyUpdateScopeInstance, scopeSingle_ne_scopeFuture]

theorem applyUpdateScopeInstance_future_eq (svc : Service)
    (calendarID eventID originalStartTime : String) (rules : StrSlice) (patch : Event)
    (tr : List Entry) :
    applyUpdateScopeInstance svc calendarID eventID scopeFuture originalStartTime rules patch tr
      = match svc.resolveRecurringInstanceID tr calendarID eventID originalStartTime with
        | .error err =>
          ⟨"", none, some err, patch, tr ++ [⟨.lookup calendarID eventID originalStartTime, false⟩]⟩
        | .ok instanceID =>
          ⟨instanceID, rules, none, patch,
            tr ++ [⟨.lookup calendarID eventID originalStartTime, true⟩]⟩ := by
  simp [applyUpdateScopeInstance]

theorem allOk_snoc (tr : List Entry) (c : Call) (h : ∀ e ∈ tr, e.ok = true) :
    ∀ e ∈ tr ++ [⟨c, true⟩], e.ok = true := by
  intro e he
  rcases List.mem_append.1 he with h1 | h1
  · exact h e h1
  · simp at h1
    subst h1
    rfl

theorem stops_of_allOk (tr : List Entry) (err : Option Error) (h : ∀ e ∈ tr, e.ok = true) :
    StopsAtFailure tr err := Or.inl h

theorem stops_of_failed (tr : List Entry) (c : Call) (err : Error) (h : ∀ e ∈ tr, e.ok = true) :
    StopsAtFailure (tr ++ [⟨c, false⟩]) (some err) :=
  Or.inr ⟨tr, ⟨c, false⟩, rfl, h, rfl, by simp⟩

/-- In a trace of the shape `StopsAtFailure`, nothing follows a failed call, and a
failed call comes with an error. -/
theorem stops_failed_is_last (tr : List Entry) (err : Option Error) (h : StopsAtFailure tr err)
    (pre : List Entry) (e : Entry) (post : List Entry) (htr : tr = pre ++ e :: post)
    (hfail : e.ok = false) : post = [] ∧ err ≠ none := by
  rcases h with hall | ⟨oks, last, hshape, hoks, -, herr⟩
  · have : e.ok = true := hall e (by rw [htr]; simp)
    rw [hfail] at this
    cases this
  · refine ⟨?_, herr⟩
    rw [hshape] at htr
    by_contra hpost
    obtain ⟨init, z, hz⟩ : ∃ init z, post = init ++ [z] := by
      rcases List.eq_nil_or_concat post with h0 | ⟨init, z, hz⟩
      · exact absurd h0 hpost
      · exact ⟨init, z, by simpa using hz⟩
    rw [hz] at htr
    have h2 : oks ++ [last] = (pre ++ e :: init) ++ [z] := by simpa using htr
    have h3 := List.append_inj_left' h2 rfl
    have : e.ok = true := hoks e (by rw [h3]; simp)
    rw [hfail] at this
    cases this

/-- The calls `applyUpdateScope` adds stop at the first failure, and when it returns
no error all of them succeeded. -/
theorem applyUpdateScope_stops (svc : Service)
    (calendarID eventID scope originalStartTime : String) (patch : Event) (tr : List Entry)
    (hall : ∀ e ∈ tr, e.ok = true) :
    ((applyUpdateScope svc calendarID eventID scope originalStartTime patch tr).err = none →
        ∀ e ∈ (applyUpdateScope svc calendarID eventID scope originalStartTime patch tr).trace,
          e.ok = true) ∧
      StopsAtFailure (applyUpdateScope svc calendarID eventID scope originalStartTime patch tr).trace
        (applyUpdateScope svc calendarID eventID scope originalStartTime patch tr).err := by
  have inst : ∀ (rules : StrSlice) (p : Event) (t : List Entry), (∀ e ∈ t, e.ok = true) →
      ((applyUpdateScopeInstance svc calendarID eventID scope originalStartTime rules p t).err
          = none →
        ∀ e ∈ (applyUpdateScopeInstance svc calendarID eventID scope originalStartTime rules p
          t).trace, e.ok = true) ∧
      StopsAtFailure
        (applyUpdateScopeInstance svc calendarID eventID scope originalStartTime rules p t).trace
        (applyUpdateScopeInstance svc calendarID eventID scope originalStartTime rules p t).err := by
    intro rules p t ht
    unfold applyUpdateScopeInstance
    split
    · split
      · exact ⟨fun h => by simp at h, stops_of_failed _ _ _ ht⟩
      · exact ⟨fun _ => allOk_snoc _ _ ht, stops_of_allOk _ _ (allOk_snoc _ _ ht)⟩
    · exact ⟨fun _ => ht, stops_of_allOk _ _ ht⟩
  unfold applyUpdateScope
  split
  · split
    · exact ⟨fun h => by simp at h, stops_of_failed _ _ _ hall⟩
    · split
      · exact ⟨fun h => by simp at h, stops_of_allOk _ _ (allOk_snoc _ _ hall)⟩
      · exact inst _ _ _ (allOk_snoc _ _ hall)
  · exact inst _ _ _ hall

theorem truncateParentRecurrence_stops (env : Env) (svc : Service) (calendarID eventID : String)
    (rules : StrSlice) (originalStartTime : String) (tr : List Entry)
    (hall : ∀ e ∈ tr, e.ok = true) :
    ((truncateParentRecurrence env svc calendarID eventID rules originalStartTime tr).1 = none →
        ∀ e ∈ (truncateParentRecurrence env svc calendarID eventID rules originalStartTime tr).2,
          e.ok = true) ∧
      StopsAtFailure (truncateParentRecurrence env svc calendarID eventID rules originalStartTime tr).2
        (truncateParentRecurrence env svc calendarID eventID rules originalStartTime tr).1 := by
  unfold truncateParentRecurrence
  split
  · exact ⟨fun h => by simp at h, stops_of_allOk _ _ hall⟩
  · split
    · exact ⟨fun h => by simp at h, stops_of_failed _ _ _ hall⟩
    · exact ⟨fun _ => allOk_snoc _ _ hall, stops_of_allOk _ _ (allOk_snoc _ _ hall)⟩

theorem update_runScoped_stops (env : Env) (c : CalendarUpdateCmd) (svc : Service)
    (calendarID eventID scope : String) (patch : Event) (changed : Bool) (tr : List Entry)
    (hall : ∀ e ∈ tr, e.ok = true) :
    StopsAtFailure (c.runScoped env svc calendarID eventID scope patch changed tr).trace
      (c.runScoped env svc calendarID eventID scope patch changed tr).err := by
  have hs := applyUpdateScope_stops svc calendarID eventID scope c.OriginalStartTime patch tr hall
  unfold CalendarUpdateCmd.runScoped
  generalize applyUpdateScope svc calendarID eventID scope c.OriginalStartTime patch tr = r at hs ⊢
  split
  · exact stops_of_allOk _ _ hall
  · simp only []
    split
    · rename_i err herr
      have h2 := hs.2
      rw [herr] at h2
      exact h2
    · rename_i herr
      have hok := hs.1 herr
      split
      · exact stops_of_failed _ _ _ hok
      · split
        · have ht := truncateParentRecurrence_stops env svc calendarID eventID
            r.parentRecurrence c.OriginalStartTime
            (r.trace ++ [⟨.patch calendarID r.targetEventID r.patch, true⟩]) (allOk_snoc _ _ hok)
          split
          · rename_i err tr3 heq
            have h2 := ht.2
            rw [heq] at h2
            exact h2
          · rename_i tr3 heq
            have h1 := ht.1
            rw [heq] at h1
            rw [update_report_trace]
            exact stops_of_allOk _ _ (h1 rfl)
        · rw [update_report_trace]
          exact stops_of_allOk _ _ (allOk_snoc _ _ hok)

theorem update_runWithService_stops (env : Env) (c : CalendarUpdateCmd) (svc : Service)
    (calendarID eventID scope : String) (patch : Event) (changed : Bool) :
    StopsAtFailure (c.runWithService env svc calendarID eventID scope patch changed).trace
      (c.runWithService env svc calendarID eventID scope patch changed).err := by
  unfold CalendarUpdateCmd.runWithService
  split
  · split
    · exact stops_of_failed [] _ _ (by simp)
    · exact update_runScoped_stops _ _ _ _ _ _ _ _ _ (by simp)
  · exact update_runScoped_stops _ _ _ _ _ _ _ _ _ (by simp)

theorem update_run_stops (env : Env) (c : CalendarUpdateCmd) :
    StopsAtFailure (c.Run env).trace (c.Run env).err := by
  unfold CalendarUpdateCmd.Run
  repeat' split
  all_goals first
    | exact update_runWithService_stops _ _ _ _ _ _ _ _
    | exact stops_of_allOk _ _ (by simp [RunResult.early])

theorem delete_deleteTarget_stops (env : Env) (c : CalendarDeleteCmd) (svc : Service)
    (calendarID eventID scope targetEventID : String) (rules : StrSlice) (tr : List Entry)
    (hall : ∀ e ∈ tr, e.ok = true) :
    StopsAtFailure (c.deleteTarget env svc calendarID eventID scope targetEventID rules tr).trace
      (c.deleteTarget env svc calendarID eventID scope targetEventID rules tr).err := by
  unfold CalendarDeleteCmd.deleteTarget
  split
  · exact stops_of_failed _ _ _ hall
  · split
    · split
      · exact stops_of_allOk _ _ (allOk_snoc _ _ hall)
      · split
        · exact stops_of_failed _ _ _ (allOk_snoc _ _ hall)
        · rw [delete_report_trace]
          exact stops_of_allOk _ _ (allOk_snoc _ _ (allOk_snoc _ _ hall))
    · rw [delete_report_trace]
      exact stops_of_allOk _ _ (allOk_snoc _ _ hall)

theorem delete_resolveTarget_stops (env : Env) (c : CalendarDeleteCmd) (svc : Service)
    (calendarID eventID scope : String) (rules : StrSlice) (tr : List Entry)
    (hall : ∀ e ∈ tr, e.ok = true) :
    StopsAtFailure (c.resolveTarget env svc calendarID eventID scope rules tr).trace
      (c.resolveTarget env svc calendarID eventID scope rules tr).err := by
  unfold CalendarDeleteCmd.resolveTarget
  split
  · split
    · exact stops_of_failed _ _ _ hall
    · exact delete_deleteTarget_stops _ _ _ _ _ _ _ _ _ (allOk_snoc _ _ hall)
  · exact delete_deleteTarget_stops _ _ _ _ _ _ _ _ _ hall

theorem delete_runWithService_stops (env : Env) (c : CalendarDeleteCmd) (svc : Service)
    (calendarID eventID scope : String) :
    StopsAtFailure (c.runWithService env svc calendarID eventID scope).trace
      (c.runWithService env svc calendarID eventID scope).err := by
  unfold CalendarDeleteCmd.runWithService
  split
  · split
    · exact stops_of_failed [] _ _ (by simp)
    · split
      · exact stops_of_allOk _ _ (by simp)
      · exact delete_resolveTarget_stops _ _ _ _ _ _ _ _ (by simp)
  · exact delete_resolveTarget_stops _ _ _ _ _ _ _ _ (by simp)

theorem delete_run_stops (env : Env) (c : CalendarDeleteCmd) :
    StopsAtFailure (c.Run env).trace (c.Run env).err := by
  unfold CalendarDeleteCmd.Run
  repeat' split
  all_goals first
    | exact delete_runWithService_stops _ _ _ _ _ _
    | exact stops_of_allOk _ _ (by simp [RunResult.early])


/-! ### The runs, scope by scope -/

/-- The body an update with scope `future` sends to the instance: the patch itself
when it specifies recurrence, the patch with the rules of the master otherwise. -/
theorem applyUpdateScope_future_eq (svc : Service) (calendarID eventID originalStartTime : String)
    (patch : Event) (tr : List Entry) :
    applyUpdateScope svc calendarID eventID scopeFuture originalStartTime patch tr
      = match svc.get tr calendarID eventID with
        | .error err => ⟨"", none, some err, patch, tr ++ [⟨.get calendarID eventID, false⟩]⟩
        | .ok parent =>
          if len parent.Recurrence = 0 then
            ⟨"", none, some (.errorf ("event " ++ eventID ++ " is not a recurring event")), patch,
              tr ++ [⟨.get calendarID eventID, true⟩]⟩
          else
            match svc.resolveRecurringInstanceID (tr ++ [⟨.get calendarID eventID, true⟩])
                calendarID eventID originalStartTime with
            | .error err =>
              ⟨"", none, some err,
                if recurrenceOverride patch then patch
                else { patch with Recurrence := parent.Recurrence },
                tr ++ [⟨.get calendarID eventID, true⟩] ++
                  [⟨.lookup calendarID eventID originalStartTime, false⟩]⟩
            | .ok instanceID =>
              ⟨instanceID, parent.Recurrence, none,
                if recurrenceOverride patch then patch
                else { patch with Recurrence := parent.Recurrence },
                tr ++ [⟨.get calendarID eventID, true⟩] ++
                  [⟨.lookup calendarID eventID originalStartTime, true⟩]⟩ := by
  unfold applyUpdateScope
  simp only [if_true]
  cases svc.get tr calendarID eventID with
  | error err => rfl
  | ok parent =>
    simp only []
    split
    · rfl
    · rw [applyUpdateScopeInstance_future_eq]

theorem update_runScoped_all_eq (env : Env) (c : CalendarUpdateCmd) (svc : Service)
    (calendarID eventID : String) (patch : Event) (tr : List Entry) :
    c.runScoped env svc calendarID eventID scopeAll patch true tr
      = match svc.patch tr calendarID eventID patch with
        | .error err => ⟨some err, true, tr ++ [⟨.patch calendarID eventID patch, false⟩], none⟩
        | .ok updated =>
          CalendarUpdateCmd.report env updated (tr ++ [⟨.patch calendarID eventID patch, true⟩]) := by
  unfold CalendarUpdateCmd.runScoped
  simp only [applyUpdateScope_all_eq, scopeAll_ne_scopeFuture, if_false, Bool.not_true,
    Bool.false_eq_true]

theorem update_runScoped_single_eq (env : Env) (c : CalendarUpdateCmd) (svc : Service)
    (calendarID eventID : String) (patch : Event) (tr : List Entry) :
    c.runScoped env svc calendarID eventID scopeSingle patch true tr
      = match svc.resolveRecurringInstanceID tr calendarID eventID c.OriginalStartTime with
        | .error err =>
          ⟨some err, true, tr ++ [⟨.lookup calendarID eventID c.OriginalStartTime, false⟩], none⟩
        | .ok instanceID =>
          match svc.patch (tr ++ [⟨.lookup calendarID eventID c.OriginalStartTime, true⟩])
              calendarID instanceID patch with
          | .error err =>
            ⟨some err, true,
              tr ++ [⟨.lookup calendarID eventID c.OriginalStartTime, true⟩] ++
                [⟨.patch calendarID instanceID patch, false⟩], none⟩
          | .ok updated =>
            CalendarUpdateCmd.report env updated
              (tr ++ [⟨.lookup calendarID eventID c.OriginalStartTime, true⟩] ++
                [⟨.patch calendarID instanceID patch, true⟩]) := by
  unfold CalendarUpdateCmd.runScoped
  simp only [applyUpdateScope_single_eq, scopeSingle_ne_scopeFuture, if_false, Bool.not_true,
    Bool.false_eq_true]
  cases svc.resolveRecurringInstanceID tr calendarID eventID c.OriginalStartTime with
  | error err => rfl
  | ok instanceID => rfl

theorem update_runScoped_future_eq (env : Env) (c : CalendarUpdateCmd) (svc : Service)
    (calendarID eventID : String) (patch : Event) (tr : List Entry) :
    c.runScoped env svc calendarID eventID scopeFuture patch true tr
      = match svc.get tr calendarID eventID with
        | .error err => ⟨some err, true, tr ++ [⟨.get calendarID eventID, false⟩], none⟩
        | .ok parent =>
          if len parent.Recurrence = 0 then
            ⟨some (.errorf ("event " ++ eventID ++ " is not a recurring event")), true,
              tr ++ [⟨.get calendarID eventID, true⟩], none⟩
          else
            match svc.resolveRecurringInstanceID (tr ++ [⟨.get calendarID eventID, true⟩])
                calendarID eventID c.OriginalStartTime with
            | .error err =>
              ⟨some err, true,
                tr ++ [⟨.get calendarID eventID, true⟩] ++
                  [⟨.lookup calendarID eventID c.OriginalStartTime, false⟩], none⟩
            | .ok instanceID =>
              match svc.patch
                  (tr ++ [⟨.get calendarID eventID, true⟩] ++
                    [⟨.lookup calendarID eventID c.OriginalStartTime, true⟩])
                  calendarID instanceID
                  (if recurrenceOverride patch then patch
                    else { patch with Recurrence := parent.Recurrence }) with
              | .error err =>
                ⟨some err, true,
                  tr ++ [⟨.get calendarID eventID, true⟩] ++
                    [⟨.lookup calendarID eventID c.OriginalStartTime, true⟩] ++
                    [⟨.patch calendarID instanceID
                      (if recurrenceOverride patch then patch
                        else { patch with Recurrence := parent.Recurrence }), false⟩], none⟩
              | .ok updated =>
                match env.truncateRecurrence parent.Recurrence c.OriginalStartTime with
                | .error err =>
                  ⟨some err, true,
                    tr ++ [⟨.get calendarID eventID, true⟩] ++
                      [⟨.lookup calendarID eventID c.OriginalStartTime, true⟩] ++
                      [⟨.patch calendarID instanceID
                        (if recurrenceOverride patch then patch
                          else { patch with Recurrence := parent.Recurrence }), true⟩], none⟩
                | .ok truncated =>
                  match svc.patch
                      (tr ++ [⟨.get calendarID eventID, true⟩] ++
                        [⟨.lookup calendarID eventID c.OriginalStartTime, true⟩] ++
                        [⟨.patch calendarID instanceID
                          (if recurrenceOverride patch then patch
                            else { patch with Recurrence := parent.Recurrence }), true⟩])
                      calendarID eventID { Event.zero with Recurrence := truncated } with
                  | .error err =>
                    ⟨some err, true,
                      tr ++ [⟨.get calendarID eventID, true⟩] ++
                        [⟨.lookup calendarID eventID c.OriginalStartTime, true⟩] ++
                        [⟨.patch calendarID instanceID
                          (if recurrenceOverride patch then patch
                            else { patch with Recurrence := parent.Recurrence }), true⟩] ++
                        [⟨.patch calendarID eventID { Event.zero with Recurrence := truncated },
                          false⟩], none⟩
                  | .ok _ =>
                    CalendarUpdateCmd.report env updated
                      (tr ++ [⟨.get calendarID eventID, true⟩] ++
                        [⟨.lookup calendarID eventID c.OriginalStartTime, true⟩] ++
                        [⟨.patch calendarID instanceID
                          (if recurrenceOverride patch then patch
                            else { patch with Recurrence := parent.Recurrence }), true⟩] ++
                        [⟨.patch calendarID eventID { Event.zero with Recurrence := truncated },
                          true⟩]) := by
  unfold CalendarUpdateCmd.runScoped
  simp only [applyUpdateScope_future_eq, if_true, Bool.not_true, Bool.false_eq_true, if_false]
  cases svc.get tr calendarID eventID with
  | error err => rfl
  | ok parent =>
    simp only []
    by_cases hrec : len parent.Recurrence = 0
    · simp only [hrec, if_true]
    · simp only [hrec, if_false]
      cases svc.resolveRecurringInstanceID (tr ++ [⟨.get calendarID eventID, true⟩]) calendarID
          eventID c.OriginalStartTime with
      | error err => rfl
      | ok instanceID =>
        simp only []
        cases svc.patch
            (tr ++ [⟨.get calendarID eventID, true⟩] ++
              [⟨.lookup calendarID eventID c.OriginalStartTime, true⟩])
            calendarID instanceID
            (if recurrenceOverride patch then patch
              else { patch with Recurrence := parent.Recurrence }) with
        | error err => rfl
        | ok updated =>
          simp only [truncateParentRecurrence]
          cases env.truncateRecurrence parent.Recurrence c.OriginalStartTime with
          | error err => rfl
          | ok truncated =>
            simp only []
            cases svc.patch
                (tr ++ [⟨.get calendarID eventID, true⟩] ++
                  [⟨.lookup calendarID eventID c.OriginalStartTime, true⟩] ++
                  [⟨.patch calendarID instanceID
                    (if recurrenceOverride patch then patch
                      else { patch with Recurrence := parent.Recurrence }), true⟩])
                calendarID eventID { Event.zero with Recurrence := truncated } with
            | error err => rfl
            | ok _ => rfl

theorem delete_runWithService_all_eq (env : Env) (c : CalendarDeleteCmd) (svc : Service)
    (calendarID eventID : String) :
    c.runWithService env svc calendarID eventID scopeAll
      = match svc.delete [] calendarID eventID with
        | some err => ⟨some err, true, [] ++ [⟨.delete calendarID eventID, false⟩], none⟩
        | none =>
          CalendarDeleteCmd.report env calendarID eventID
            ([] ++ [⟨.delete calendarID eventID, true⟩]) := by
  unfold CalendarDeleteCmd.runWithService CalendarDeleteCmd.resolveTarget
    CalendarDeleteCmd.deleteTarget
  simp only [scopeAll_ne_scopeFuture, scopeAll_ne_scopeSingle, if_false, or_self]

theorem delete_runWithService_single_eq (env : Env) (c : CalendarDeleteCmd) (svc : Service)
    (calendarID eventID : String) :
    c.runWithService env svc calendarID eventID scopeSingle
      = match svc.resolveRecurringInstanceID [] calendarID eventID c.OriginalStartTime with
        | .error err =>
          ⟨some err, true, [] ++ [⟨.lookup calendarID eventID c.OriginalStartTime, false⟩], none⟩
        | .ok instanceID =>
          match svc.delete ([] ++ [⟨.lookup calendarID eventID c.OriginalStartTime, true⟩])
              calendarID instanceID with
          | some err =>
            ⟨some err, true,
              [] ++ [⟨.lookup calendarID eventID c.OriginalStartTime, true⟩] ++
                [⟨.delete calendarID instanceID, false⟩], none⟩
          | none =>
            CalendarDeleteCmd.report env calendarID instanceID
              ([] ++ [⟨.lookup calendarID eventID c.OriginalStartTime, true⟩] ++
                [⟨.delete calendarID instanceID, true⟩]) := by
  unfold CalendarDeleteCmd.runWithService CalendarDeleteCmd.resolveTarget
    CalendarDeleteCmd.deleteTarget
  simp only [scopeSingle_ne_scopeFuture, if_false, true_or, if_true]

theorem delete_runWithService_future_eq (env : Env) (c : CalendarDeleteCmd) (svc : Service)
    (calendarID eventID : String) :
    c.runWithService env svc calendarID eventID scopeFuture
      = match svc.get [] calendarID eventID with
        | .error err => ⟨some err, true, [⟨.get calendarID eventID, false⟩], none⟩
        | .ok parent =>
          if len parent.Recurrence = 0 then
            ⟨some (.errorf ("event " ++ eventID ++ " is not a recurring event")), true,
              [⟨.get calendarID eventID, true⟩], none⟩
          else
            match svc.resolveRecurringInstanceID [⟨.get calendarID eventID, true⟩] calendarID
                eventID c.OriginalStartTime with
            | .error err =>
              ⟨some err, true,
                [⟨.get calendarID eventID, true⟩] ++
                  [⟨.lookup calendarID eventID c.OriginalStartTime, false⟩], none⟩
            | .ok instanceID =>
              match svc.delete
                  ([⟨.get calendarID eventID, true⟩] ++
                    [⟨.lookup calendarID eventID c.OriginalStartTime, true⟩])
                  calendarID instanceID with
              | some err =>
                ⟨some err, true,
                  [⟨.get calendarID eventID, true⟩] ++
                    [⟨.lookup calendarID eventID c.OriginalStartTime, true⟩] ++
                    [⟨.delete calendarID instanceID, false⟩], none⟩
              | none =>
                match env.truncateRecurrence parent.Recurrence c.OriginalStartTime with
                | .error err =>
                  ⟨some err, true,
                    [⟨.get calendarID eventID, true⟩] ++
                      [⟨.lookup calendarID eventID c.OriginalStartTime, true⟩] ++
                      [⟨.delete calendarID instanceID, true⟩], none⟩
                | .ok truncated =>
                  match svc.patch
                      ([⟨.get calendarID eventID, true⟩] ++
                        [⟨.lookup calendarID eventID c.OriginalStartTime, true⟩] ++
                        [⟨.delete calendarID instanceID, true⟩])
                      calendarID eventID { Event.zero with Recurrence := truncated } with
                  | .error err =>
                    ⟨some err, true,
                      [⟨.get calendarID eventID, true⟩] ++
                        [⟨.lookup calendarID eventID c.OriginalStartTime, true⟩] ++
                        [⟨.delete calendarID instanceID, true⟩] ++
                        [⟨.patch calendarID eventID { Event.zero with Recurrence := truncated },
                          false⟩], none⟩
                  | .ok _ =>
                    CalendarDeleteCmd.report env calendarID instanceID
                      ([⟨.get calendarID eventID, true⟩] ++
                        [⟨.lookup calendarID eventID c.OriginalStartTime, true⟩] ++
                        [⟨.delete calendarID instanceID, true⟩] ++
                        [⟨.patch calendarID eventID { Event.zero with Recurrence := truncated },
                          true⟩]) := by
  unfold CalendarDeleteCmd.runWithService CalendarDeleteCmd.resolveTarget
    CalendarDeleteCmd.deleteTarget
  simp only [if_true, or_true]

/-! ## The claims -/

/-- C1: when `applyUpdateScope` runs with scope `future` on a patch that already
specifies recurrence (its `Recurrence` is non-empty, or `Recurrence` is listed in its
`ForceSendFields`), the `Recurrence` and the `ForceSendFields` of the patch after the
call, and indeed the whole patch, are what they were before it, whatever the master
holds and whether or not the call succeeds. -/
theorem applyUpdateScope_future_keeps_explicit_recurrence (svc : Service)
    (calendarID eventID originalStartTime : String) (patch : Event) (tr : List Entry)
    (hspecified : len patch.Recurrence > 0 ∨ "Recurrence" ∈ elems patch.ForceSendFields) :
    (applyUpdateScope svc calendarID eventID scopeFuture originalStartTime patch tr).patch.Recurrence
        = patch.Recurrence ∧
      (applyUpdateScope svc calendarID eventID scopeFuture originalStartTime patch
        tr).patch.ForceSendFields = patch.ForceSendFields ∧
      (applyUpdateScope svc calendarID eventID scopeFuture originalStartTime patch tr).patch
        = patch := by
  have hov : recurrenceOverride patch = true := (recurrenceOverride_iff patch).2 hspecified
  have key : (applyUpdateScope svc calendarID eventID scopeFuture originalStartTime patch
      tr).patch = patch := by
    unfold applyUpdateScope
    simp only [hov, if_true]
    split
    · rfl
    · split
      · rfl
      · exact applyUpdateScopeInstance_patch _ _ _ _ _ _ _ _
  rw [key]
  exact ⟨rfl, rfl, rfl⟩

theorem applyUpdateScope_future_keeps_explicit_recurrence_witness :
    (len dailyPatch.Recurrence > 0 ∨ "Recurrence" ∈ elems dailyPatch.ForceSendFields) ∧
      ((applyUpdateScope demoService "primary" "E1" scopeFuture "2024-03-04T09:00:00Z" dailyPatch
          []).patch.Recurrence = dailyPatch.Recurrence ∧
        (applyUpdateScope demoService "primary" "E1" scopeFuture "2024-03-04T09:00:00Z" dailyPatch
          []).patch.ForceSendFields = dailyPatch.ForceSendFields ∧
        (applyUpdateScope demoService "primary" "E1" scopeFuture "2024-03-04T09:00:00Z" dailyPatch
          []).patch = dailyPatch) :=
  ⟨by decide,
    applyUpdateScope_future_keeps_explicit_recurrence demoService "primary" "E1"
      "2024-03-04T09:00:00Z" dailyPatch [] (by decide)⟩

/-- C2: with scope `all`, `applyUpdateScope` returns the given series id as target,
nil parent rules and no error, adds no call to the trace (no master fetch, no instance
lookup) and leaves the patch unchanged, for every series id, original start and patch. -/
theorem applyUpdateScope_all_returns_series_id (svc : Service)
    (calendarID eventID originalStartTime : String) (patch : Event) (tr : List Entry) :
    applyUpdateScope svc calendarID eventID scopeAll originalStartTime patch tr
      = ⟨eventID, none, none, patch, tr⟩ := by
  exact applyUpdateScope_all_eq _ _ _ _ _ _

/-- C3: with scope `future`, when the fetched master has an empty rule set,
`applyUpdateScope` returns the error `event <id> is not a recurring event` with an
empty target id and nil parent rules, the fetch is the only call it adds to the trace
(no instance lookup) and the patch is unchanged; and a delete command that gets as far
as the service returns that error after the fetch alone: no lookup, no delete, no patch. -/
theorem future_scope_rejects_non_recurring_master :
    (∀ (svc : Service) (calendarID eventID originalStartTime : String) (patch : Event)
        (tr : List Entry) (parent : Event),
        svc.get tr calendarID eventID = .ok parent → len parent.Recurrence = 0 →
        applyUpdateScope svc calendarID eventID scopeFuture originalStartTime patch tr
          = ⟨"", none, some (.errorf ("event " ++ eventID ++ " is not a recurring event")), patch,
              tr ++ [⟨.get calendarID eventID, true⟩]⟩) ∧
    (∀ (env : Env) (c : CalendarDeleteCmd) (account : String) (svc : Service) (parent : Event),
        env.requireAccount = .ok account → env.newCalendarService account = .ok svc →
        (c.Run env).serviceRequested = true → normalizeScope env c.Scope = scopeFuture →
        svc.get [] (trimSpace c.CalendarID) (trimSpace c.EventID) = .ok parent →
        len parent.Recurrence = 0 →
        c.Run env
          = ⟨some (.errorf ("event " ++ trimSpace c.EventID ++ " is not a recurring event")), true,
              [⟨.get (trimSpace c.CalendarID) (trimSpace c.EventID), true⟩], none⟩) := by
  constructor
  · intro svc calendarID eventID originalStartTime patch tr parent hget hrec
    simp [applyUpdateScope, hget, hrec]
  · intro env c account svc parent hacc hsvc hreq hscope hget hrec
    rw [(delete_run_of_serviceRequested env c account svc hacc hsvc hreq).2, hscope]
    simp [CalendarDeleteCmd.runWithService, hget, hrec]

theorem future_scope_rejects_non_recurring_master_witness :
    applyUpdateScope plainService "primary" "E1" scopeFuture "2024-03-04T09:00:00Z" summaryPatch []
        = ⟨"", none, some (.errorf ("event " ++ "E1" ++ " is not a recurring event")), summaryPatch,
            [] ++ [⟨.get "primary" "E1", true⟩]⟩ ∧
      (demoDelete "future" "2024-03-04T09:00:00Z").Run (demoEnv [] plainService)
        = ⟨some (.errorf ("event " ++ trimSpace " E1 " ++ " is not a recurring event")), true,
            [⟨.get (trimSpace "primary") (trimSpace " E1 "), true⟩], none⟩ :=
  ⟨future_scope_rejects_non_recurring_master.1 plainService "primary" "E1"
      "2024-03-04T09:00:00Z" summaryPatch [] { Event.zero with Summary := "lunch" } rfl
      (by decide),
    future_scope_rejects_non_recurring_master.2 (demoEnv [] plainService)
      (demoDelete "future" "2024-03-04T09:00:00Z") "me@example.com" plainService
      { Event.zero with Summary := "lunch" } rfl rfl (by decide) (by decide) rfl (by decide)⟩

/-- C4: with scope `future`, a master with a non-empty rule set and a patch that does
not specify recurrence (empty `Recurrence`, no `Recurrence` among its `ForceSendFields`),
the patch after `applyUpdateScope` has the fetched rule set of the master as its
`Recurrence`, the same lines in the same order, and is otherwise unchanged. -/
theorem applyUpdateScope_future_inherits_parent_rules (svc : Service)
    (calendarID eventID originalStartTime : String) (patch : Event) (tr : List Entry)
    (parent : Event) (hget : svc.get tr calendarID eventID = .ok parent)
    (hrecurring : len parent.Recurrence ≠ 0) (hempty : len patch.Recurrence = 0)
    (hforce : "Recurrence" ∉ elems patch.ForceSendFields) :
    (applyUpdateScope svc calendarID eventID scopeFuture originalStartTime patch tr).patch.Recurrence
        = parent.Recurrence ∧
      (applyUpdateScope svc calendarID eventID scopeFuture originalStartTime patch tr).patch
        = { patch with Recurrence := parent.Recurrence } := by
  have hov : recurrenceOverride patch = false := by
    rw [Bool.eq_false_iff, Ne, recurrenceOverride_iff]
    rintro (h | h)
    · omega
    · exact hforce h
  have key : (applyUpdateScope svc calendarID eventID scopeFuture originalStartTime patch
      tr).patch = { patch with Recurrence := parent.Recurrence } := by
    unfold applyUpdateScope
    simp only [if_true, hget, hrecurring, if_false, hov]
    exact applyUpdateScopeInstance_patch _ _ _ _ _ _ _ _
  rw [key]
  exact ⟨rfl, rfl⟩

theorem applyUpdateScope_future_inherits_parent_rules_witness :
    (applyUpdateScope demoService "primary" "E1" scopeFuture "2024-03-04T09:00:00Z" summaryPatch
        []).patch.Recurrence = weeklyMaster.Recurrence ∧
      (applyUpdateScope demoService "primary" "E1" scopeFuture "2024-03-04T09:00:00Z" summaryPatch
        []).patch = { summaryPatch with Recurrence := weeklyMaster.Recurrence } :=
  applyUpdateScope_future_inherits_parent_rules demoService "primary" "E1" "2024-03-04T09:00:00Z"
    summaryPatch [] weeklyMaster rfl (by decide) (by decide) (by decide)

/-! ### Lemmas for the call sequences -/

/-- An update with scope `future` whose calls all succeed, on a recurring master whose
rules can be truncated: the four calls after the trace `tr` it starts from. -/
theorem update_runScoped_future_sequence (env : Env) (c : CalendarUpdateCmd) (svc : Service)
    (calendarID eventID : String) (patch : Event) (tr : List Entry) (parent : Event)
    (truncated : StrSlice) (hget : svc.get tr calendarID eventID = .ok parent)
    (hrec : len parent.Recurrence ≠ 0)
    (htrunc : env.truncateRecurrence parent.Recurrence c.OriginalStartTime = .ok truncated)
    (hall : ∀ e ∈ (c.runScoped env svc calendarID eventID scopeFuture patch true tr).trace,
      e.ok = true) :
    ∃ instanceID body,
      svc.resolveRecurringInstanceID (tr ++ [⟨.get calendarID eventID, true⟩]) calendarID eventID
          c.OriginalStartTime = .ok instanceID ∧
        (c.runScoped env svc calendarID eventID scopeFuture patch true tr).trace
          = tr ++ [⟨.get calendarID eventID, true⟩,
              ⟨.lookup calendarID eventID c.OriginalStartTime, true⟩,
              ⟨.patch calendarID instanceID body, true⟩,
              ⟨.patch calendarID eventID { Event.zero with Recurrence := truncated }, true⟩] := by
  rw [update_runScoped_future_eq] at hall ⊢
  simp only [hget, hrec, if_false] at hall ⊢
  cases hres : svc.resolveRecurringInstanceID (tr ++ [⟨.get calendarID eventID, true⟩]) calendarID
      eventID c.OriginalStartTime with
  | error err =>
    simp only [hres] at hall
    have := hall ⟨.lookup calendarID eventID c.OriginalStartTime, false⟩ (by simp)
    cases this
  | ok instanceID =>
    simp only [hres] at hall ⊢
    generalize hbody : (if recurrenceOverride patch then patch
      else { patch with Recurrence := parent.Recurrence }) = body at hall ⊢
    cases hp : svc.patch
        (tr ++ [⟨.get calendarID eventID, true⟩] ++
          [⟨.lookup calendarID eventID c.OriginalStartTime, true⟩]) calendarID instanceID body with
    | error err =>
      simp only [hp] at hall
      have := hall ⟨.patch calendarID instanceID body, false⟩ (by simp)
      cases this
    | ok updated =>
      simp only [hp, htrunc] at hall ⊢
      cases hq : svc.patch
          (tr ++ [⟨.get calendarID eventID, true⟩] ++
            [⟨.lookup calendarID eventID c.OriginalStartTime, true⟩] ++
            [⟨.patch calendarID instanceID body, true⟩]) calendarID eventID
          { Event.zero with Recurrence := truncated } with
      | error err =>
        simp only [hq] at hall
        have := hall ⟨.patch calendarID eventID { Event.zero with Recurrence := truncated }, false⟩
          (by simp)
        cases this
      | ok _ =>
        refine ⟨instanceID, body, rfl, ?_⟩
        simp only [update_report_trace]
        simp


/-- An update with scope `future` whose calls all succeed, on a recurring master whose
rules `truncateRecurrence` rejects: three calls after the trace `tr` it starts from, no
patch of the master, and the error of `truncateRecurrence` is returned. -/
theorem update_runScoped_future_truncate_error (env : Env) (c : CalendarUpdateCmd)
    (svc : Service) (calendarID eventID : String) (patch : Event) (tr : List Entry)
    (parent : Event) (terr : Error) (hget : svc.get tr calendarID eventID = .ok parent)
    (hrec : len parent.Recurrence ≠ 0)
    (htrunc : env.truncateRecurrence parent.Recurrence c.OriginalStartTime = .error terr)
    (hall : ∀ e ∈ (c.runScoped env svc calendarID eventID scopeFuture patch true tr).trace,
      e.ok = true) :
    ∃ instanceID body,
      svc.resolveRecurringInstanceID (tr ++ [⟨.get calendarID eventID, true⟩]) calendarID eventID
          c.OriginalStartTime = .ok instanceID ∧
        (c.runScoped env svc calendarID eventID scopeFuture patch true tr).trace
          = tr ++ [⟨.get calendarID eventID, true⟩,
              ⟨.lookup calendarID eventID c.OriginalStartTime, true⟩,
              ⟨.patch calendarID instanceID body, true⟩] ∧
        (c.runScoped env svc calendarID eventID scopeFuture patch true tr).err = some terr := by
  rw [update_runScoped_future_eq] at hall ⊢
  simp only [hget, hrec, if_false] at hall ⊢
  cases hres : svc.resolveRecurringInstanceID (tr ++ [⟨.get calendarID eventID, true⟩]) calendarID
      eventID c.OriginalStartTime with
  | error err =>
    simp only [hres] at hall
    have := hall ⟨.lookup calendarID eventID c.OriginalStartTime, false⟩ (by simp)
    cases this
  | ok instanceID =>
    simp only [hres] at hall ⊢
    generalize hbody : (if recurrenceOverride patch then patch
      else { patch with Recurrence := parent.Recurrence }) = body at hall ⊢
    cases hp : svc.patch
        (tr ++ [⟨.get calendarID eventID, true⟩] ++
          [⟨.lookup calendarID eventID c.OriginalStartTime, true⟩]) calendarID instanceID body with
    | error err =>
      simp only [hp] at hall
      have := hall ⟨.patch calendarID instanceID body, false⟩ (by simp)
      cases this
    | ok updated =>
      simp only [htrunc]
      exact ⟨instanceID, body, rfl, by simp, trivial⟩

theorem update_runScoped_single_trace (env : Env) (c : CalendarUpdateCmd) (svc : Service)
    (calendarID eventID : String) (patch : Event) (tr : List Entry) :
    (c.runScoped env svc calendarID eventID scopeSingle patch true tr).trace
        = tr ++ [⟨.lookup calendarID eventID c.OriginalStartTime, false⟩] ∨
      ∃ instanceID ok,
        svc.resolveRecurringInstanceID tr calendarID eventID c.OriginalStartTime = .ok instanceID ∧
        (c.runScoped env svc calendarID eventID scopeSingle patch true tr).trace
          = tr ++ [⟨.lookup calendarID eventID c.OriginalStartTime, true⟩,
              ⟨.patch calendarID instanceID patch, ok⟩] := by
  rw [update_runScoped_single_eq]
  cases hres : svc.resolveRecurringInstanceID tr calendarID eventID c.OriginalStartTime with
  | error err => exact Or.inl rfl
  | ok instanceID =>
    right
    simp only []
    cases svc.patch (tr ++ [⟨.lookup calendarID eventID c.OriginalStartTime, true⟩]) calendarID
        instanceID patch with
    | error err => exact ⟨instanceID, false, rfl, by simp⟩
    | ok updated => exact ⟨instanceID, true, rfl, by simp [update_report_trace]⟩

theorem update_runScoped_all_trace (env : Env) (c : CalendarUpdateCmd) (svc : Service)
    (calendarID eventID : String) (patch : Event) (tr : List Entry) :
    ∃ ok, (c.runScoped env svc calendarID eventID scopeAll patch true tr).trace
      = tr ++ [⟨.patch calendarID eventID patch, ok⟩] := by
  rw [update_runScoped_all_eq]
  cases svc.patch tr calendarID eventID patch with
  | error err => exact ⟨false, rfl⟩
  | ok updated => exact ⟨true, by simp [update_report_trace]⟩

theorem changed_of_no_add_attendee (env : Env) (changed : Bool)
    (h : changed = true ∨ env.flagProvided "add-attendee" = true)
    (hflag : env.flagProvided "add-attendee" = false) : changed = true := by
  rcases h with h | h
  · exact h
  · rw [hflag] at h
    cases h

/-! ## The claims, continued -/

/-- C5, counterexample: the calls of a run with scope `future` can all succeed without
the parent ever being patched.  The master here recurs on listed dates only, so
`truncateRecurrence` returns an error after the instance was deleted (or patched): the
trace holds three successful calls and the command returns that error.  And an update
with `--add-attendee` makes five calls, the fetch of the current event coming first. -/
theorem future_scope_call_sequence_counterexample :
    normalizeScope (demoEnv [] rdateService) (demoDelete "future" "2024-03-04T09:00:00Z").Scope
        = scopeFuture ∧
      outline ((demoDelete "future" "2024-03-04T09:00:00Z").Run (demoEnv [] rdateService)).trace
        = [(("get", "E1"), true), (("lookup", "E1"), true),
            (("delete", "E1_2024-03-04T09:00:00Z"), true)] ∧
      ((demoDelete "future" "2024-03-04T09:00:00Z").Run (demoEnv [] rdateService)).err
        = some (.other "recurrence must contain exactly one RRULE") ∧
      outline ((demoUpdate "future" "2024-03-04T09:00:00Z" none).Run
          (demoEnv ["summary"] rdateService)).trace
        = [(("get", "E1"), true), (("lookup", "E1"), true),
            (("patch", "E1_2024-03-04T09:00:00Z"), true)] ∧
      outline ((demoUpdate "future" "2024-03-04T09:00:00Z" none).Run
          (demoEnv ["summary", "add-attendee"] demoService)).trace
        = [(("get", "E1"), true), (("get", "E1"), true), (("lookup", "E1"), true),
            (("patch", "E1_2024-03-04T09:00:00Z"), true), (("patch", "E1"), true)] := by
  decide

/-- C5, amended: for an update or a delete with scope `future` that gets as far as the
service, when every remote call succeeds, the fetched master has a non-empty rule set
and `truncateRecurrence` returns no error on that rule set and the original start, the
remote calls are, in this order: get the master, look up the instance for the original
start, patch (delete) the instance id the lookup returned, patch the master id with
exactly the truncated rules as `Recurrence`.  An update with `--add-attendee` makes one
more call before these, the fetch of the current event.  When `truncateRecurrence`
returns an error instead, the run ends after the patch (delete) of the instance: the
master is never patched and the command returns that error. -/
theorem future_scope_call_sequence :
    (∀ (env : Env) (u : CalendarUpdateCmd) (account : String) (svc : Service) (parent : Event)
        (truncated : StrSlice),
        env.requireAccount = .ok account → env.newCalendarService account = .ok svc →
        (u.Run env).serviceRequested = true → normalizeScope env u.Scope = scopeFuture →
        svc.get (attendeeFetch (env.flagProvided "add-attendee") (trimSpace u.CalendarID)
          (trimSpace u.EventID)) (trimSpace u.CalendarID) (trimSpace u.EventID) = .ok parent →
        len parent.Recurrence ≠ 0 →
        env.truncateRecurrence parent.Recurrence u.OriginalStartTime = .ok truncated →
        (∀ e ∈ (u.Run env).trace, e.ok = true) →
        ∃ instanceID body,
          svc.resolveRecurringInstanceID
              (attendeeFetch (env.flagProvided "add-attendee") (trimSpace u.CalendarID)
                (trimSpace u.EventID) ++ [⟨.get (trimSpace u.CalendarID) (trimSpace u.EventID), true⟩])
              (trimSpace u.CalendarID) (trimSpace u.EventID) u.OriginalStartTime = .ok instanceID ∧
            (u.Run env).trace
              = attendeeFetch (env.flagProvided "add-attendee") (trimSpace u.CalendarID)
                  (trimSpace u.EventID) ++
                [⟨.get (trimSpace u.CalendarID) (trimSpace u.EventID), true⟩,
                  ⟨.lookup (trimSpace u.CalendarID) (trimSpace u.EventID) u.OriginalStartTime, true⟩,
                  ⟨.patch (trimSpace u.CalendarID) instanceID body, true⟩,
                  ⟨.patch (trimSpace u.CalendarID) (trimSpace u.EventID)
                    { Event.zero with Recurrence := truncated }, true⟩]) ∧
    (∀ (env : Env) (d : CalendarDeleteCmd) (account : String) (svc : Service) (parent : Event)
        (truncated : StrSlice),
        env.requireAccount = .ok account → env.newCalendarService account = .ok svc →
        (d.Run env).serviceRequested = true → normalizeScope env d.Scope = scopeFuture →
        svc.get [] (trimSpace d.CalendarID) (trimSpace d.EventID) = .ok parent →
        len parent.Recurrence ≠ 0 →
        env.truncateRecurrence parent.Recurrence d.OriginalStartTime = .ok truncated →
        (∀ e ∈ (d.Run env).trace, e.ok = true) →
        ∃ instanceID,
          svc.resolveRecurringInstanceID
              [⟨.get (trimSpace d.CalendarID) (trimSpace d.EventID), true⟩]
              (trimSpace d.CalendarID) (trimSpace d.EventID) d.OriginalStartTime = .ok instanceID ∧
            (d.Run env).trace
              = [⟨.get (trimSpace d.CalendarID) (trimSpace d.EventID), true⟩,
                  ⟨.lookup (trimSpace d.CalendarID) (trimSpace d.EventID) d.OriginalStartTime, true⟩,
                  ⟨.delete (trimSpace d.CalendarID) instanceID, true⟩,
                  ⟨.patch (trimSpace d.CalendarID) (trimSpace d.EventID)
                    { Event.zero with Recurrence := truncated }, true⟩]) ∧
    (∀ (env : Env) (u : CalendarUpdateCmd) (account : String) (svc : Service) (parent : Event)
        (terr : Error),
        env.requireAccount = .ok account → env.newCalendarService account = .ok svc →
        (u.Run env).serviceRequested = true → normalizeScope env u.Scope = scopeFuture →
        svc.get (attendeeFetch (env.flagProvided "add-attendee") (trimSpace u.CalendarID)
          (trimSpace u.EventID)) (trimSpace u.CalendarID) (trimSpace u.EventID) = .ok parent →
        len parent.Recurrence ≠ 0 →
        env.truncateRecurrence parent.Recurrence u.OriginalStartTime = .error terr →
        (∀ e ∈ (u.Run env).trace, e.ok = true) →
        ∃ instanceID body,
          svc.resolveRecurringInstanceID
              (attendeeFetch (env.flagProvided "add-attendee") (trimSpace u.CalendarID)
                (trimSpace u.EventID) ++ [⟨.get (trimSpace u.CalendarID) (trimSpace u.EventID), true⟩])
              (trimSpace u.CalendarID) (trimSpace u.EventID) u.OriginalStartTime = .ok instanceID ∧
            (u.Run env).trace
              = attendeeFetch (env.flagProvided "add-attendee") (trimSpace u.CalendarID)
                  (trimSpace u.EventID) ++
                [⟨.get (trimSpace u.CalendarID) (trimSpace u.EventID), true⟩,
                  ⟨.lookup (trimSpace u.CalendarID) (trimSpace u.EventID) u.OriginalStartTime, true⟩,
                  ⟨.patch (trimSpace u.CalendarID) instanceID body, true⟩] ∧
            (u.Run env).err = some terr) ∧
    (∀ (env : Env) (d : CalendarDeleteCmd) (account : String) (svc : Service) (parent : Event)
        (terr : Error),
        env.requireAccount = .ok account → env.newCalendarService account = .ok svc →
        (d.Run env).serviceRequested = true → normalizeScope env d.Scope = scopeFuture →
        svc.get [] (trimSpace d.CalendarID) (trimSpace d.EventID) = .ok parent →
        len parent.Recurrence ≠ 0 →
        env.truncateRecurrence parent.Recurrence d.OriginalStartTime = .error terr →
        (∀ e ∈ (d.Run env).trace, e.ok = true) →
        ∃ instanceID,
          svc.resolveRecurringInstanceID
              [⟨.get (trimSpace d.CalendarID) (trimSpace d.EventID), true⟩]
              (trimSpace d.CalendarID) (trimSpace d.EventID) d.OriginalStartTime = .ok instanceID ∧
            (d.Run env).trace
              = [⟨.get (trimSpace d.CalendarID) (trimSpace d.EventID), true⟩,
                  ⟨.lookup (trimSpace d.CalendarID) (trimSpace d.EventID) d.OriginalStartTime, true⟩,
                  ⟨.delete (trimSpace d.CalendarID) instanceID, true⟩] ∧
            (d.Run env).err = some terr) := by
  refine ⟨?_, ?_, ?_, ?_⟩
  · intro env u account svc parent truncated hacc hsvc hreq hscope hget hrec htrunc hall
    obtain ⟨patch, changed, -, -, hchanged, hrun⟩ :=
      update_run_of_serviceRequested env u account svc hacc hsvc hreq
    rw [hrun, hscope] at hall ⊢
    unfold CalendarUpdateCmd.runWithService at hall ⊢
    cases hflag : env.flagProvided "add-attendee" with
    | true =>
      simp only [hflag, attendeeFetch, if_true] at hget hall ⊢
      cases hfetch : svc.get [] (trimSpace u.CalendarID) (trimSpace u.EventID) with
      | error err =>
        simp only [hfetch] at hall
        have := hall ⟨.get (trimSpace u.CalendarID) (trimSpace u.EventID), false⟩ (by simp)
        cases this
      | ok existing =>
        simp only [hfetch] at hall ⊢
        exact update_runScoped_future_sequence env u svc _ _ _ _ parent truncated hget hrec
          htrunc hall
    | false =>
      have hch : changed = true := by
        rcases hchanged with h | h
        · exact h
        · rw [hflag] at h
          cases h
      subst hch
      simp only [hflag, attendeeFetch, Bool.false_eq_true, if_false] at hget hall ⊢
      exact update_runScoped_future_sequence env u svc _ _ _ _ parent truncated hget hrec
        htrunc hall
  · intro env d account svc parent truncated hacc hsvc hreq hscope hget hrec htrunc hall
    rw [(delete_run_of_serviceRequested env d account svc hacc hsvc hreq).2, hscope,
      delete_runWithService_future_eq] at hall ⊢
    simp only [hget, hrec, if_false] at hall ⊢
    cases hres : svc.resolveRecurringInstanceID
        [⟨.get (trimSpace d.CalendarID) (trimSpace d.EventID), true⟩] (trimSpace d.CalendarID)
        (trimSpace d.EventID) d.OriginalStartTime with
    | error err =>
      simp only [hres] at hall
      have := hall ⟨.lookup (trimSpace d.CalendarID) (trimSpace d.EventID) d.OriginalStartTime,
        false⟩ (by simp)
      cases this
    | ok instanceID =>
      simp only [hres] at hall ⊢
      cases hdel : svc.delete
          ([⟨.get (trimSpace d.CalendarID) (trimSpace d.EventID), true⟩] ++
            [⟨.lookup (trimSpace d.CalendarID) (trimSpace d.EventID) d.OriginalStartTime, true⟩])
          (trimSpace d.CalendarID) instanceID with
      | some err =>
        simp only [hdel] at hall
        have := hall ⟨.delete (trimSpace d.CalendarID) instanceID, false⟩ (by simp)
        cases this
      | none =>
        simp only [hdel, htrunc] at hall ⊢
        cases hq : svc.patch
            ([⟨.get (trimSpace d.CalendarID) (trimSpace d.EventID), true⟩] ++
              [⟨.lookup (trimSpace d.CalendarID) (trimSpace d.EventID) d.OriginalStartTime, true⟩] ++
              [⟨.delete (trimSpace d.CalendarID) instanceID, true⟩]) (trimSpace d.CalendarID)
            (trimSpace d.EventID) { Event.zero with Recurrence := truncated } with
        | error err =>
          simp only [hq] at hall
          have := hall ⟨.patch (trimSpace d.CalendarID) (trimSpace d.EventID)
            { Event.zero with Recurrence := truncated }, false⟩ (by simp)
          cases this
        | ok _ =>
          refine ⟨instanceID, rfl, ?_⟩
          simp only [delete_report_trace]
          simp
  · intro env u account svc parent terr hacc hsvc hreq hscope hget hrec htrunc hall
    obtain ⟨patch, changed, -, -, hchanged, hrun⟩ :=
      update_run_of_serviceRequested env u account svc hacc hsvc hreq
    rw [hrun, hscope] at hall ⊢
    unfold CalendarUpdateCmd.runWithService at hall ⊢
    cases hflag : env.flagProvided "add-attendee" with
    | true =>
      simp only [hflag, attendeeFetch, if_true] at hget hall ⊢
      cases hfetch : svc.get [] (trimSpace u.CalendarID) (trimSpace u.EventID) with
      | error err =>
        simp only [hfetch] at hall
        have := hall ⟨.get (trimSpace u.CalendarID) (trimSpace u.EventID), false⟩ (by simp)
        cases this
      | ok existing =>
        simp only [hfetch] at hall ⊢
        exact update_runScoped_future_truncate_error env u svc _ _ _ _ parent terr hget hrec
          htrunc hall
    | false =>
      have hch := changed_of_no_add_attendee env changed hchanged hflag
      subst hch
      simp only [hflag, attendeeFetch, Bool.false_eq_true, if_false] at hget hall ⊢
      exact update_runScoped_future_truncate_error env u svc _ _ _ _ parent terr hget hrec
        htrunc hall
  · intro env d account svc parent terr hacc hsvc hreq hscope hget hrec htrunc hall
    rw [(delete_run_of_serviceRequested env d account svc hacc hsvc hreq).2, hscope,
      delete_runWithService_future_eq] at hall ⊢
    simp only [hget, hrec, if_false] at hall ⊢
    cases hres : svc.resolveRecurringInstanceID
        [⟨.get (trimSpace d.CalendarID) (trimSpace d.EventID), true⟩] (trimSpace d.CalendarID)
        (trimSpace d.EventID) d.OriginalStartTime with
    | error err =>
      simp only [hres] at hall
      have := hall ⟨.lookup (trimSpace d.CalendarID) (trimSpace d.EventID) d.OriginalStartTime,
        false⟩ (by simp)
      cases this
    | ok instanceID =>
      simp only [hres] at hall ⊢
      cases hdel : svc.delete
          ([⟨.get (trimSpace d.CalendarID) (trimSpace d.EventID), true⟩] ++
            [⟨.lookup (trimSpace d.CalendarID) (trimSpace d.EventID) d.OriginalStartTime, true⟩])
          (trimSpace d.CalendarID) instanceID with
      | some err =>
        simp only [hdel] at hall
        have := hall ⟨.delete (trimSpace d.CalendarID) instanceID, false⟩ (by simp)
        cases this
      | none =>
        simp only [htrunc]
        exact ⟨instanceID, rfl, by simp, trivial⟩

theorem future_scope_call_sequence_witness :
    ((∀ e ∈ ((demoDelete "Future" "2024-03-04T09:00:00Z").Run (demoEnv [] demoService)).trace,
        e.ok = true) ∧
      ∃ instanceID,
        demoService.resolveRecurringInstanceID [⟨.get "primary" "E1", true⟩] "primary" "E1"
            "2024-03-04T09:00:00Z" = .ok instanceID ∧
          ((demoDelete "Future" "2024-03-04T09:00:00Z").Run (demoEnv [] demoService)).trace
            = [⟨.get "primary" "E1", true⟩,
                ⟨.lookup "primary" "E1" "2024-03-04T09:00:00Z", true⟩,
                ⟨.delete "primary" instanceID, true⟩,
                ⟨.patch "primary" "E1"
                  { Event.zero with
                    Recurrence := some ["RRULE:FREQ=WEEKLY;BYDAY=MO;UNTIL=20240303T235959Z"] },
                  true⟩]) ∧
      ((∀ e ∈ ((demoDelete "Future" "2024-03-04T09:00:00Z").Run (demoEnv [] rdateService)).trace,
          e.ok = true) ∧
        ∃ instanceID,
          rdateService.resolveRecurringInstanceID [⟨.get "primary" "E1", true⟩] "primary" "E1"
              "2024-03-04T09:00:00Z" = .ok instanceID ∧
            ((demoDelete "Future" "2024-03-04T09:00:00Z").Run (demoEnv [] rdateService)).trace
              = [⟨.get "primary" "E1", true⟩,
                  ⟨.lookup "primary" "E1" "2024-03-04T09:00:00Z", true⟩,
                  ⟨.delete "primary" instanceID, true⟩] ∧
            ((demoDelete "Future" "2024-03-04T09:00:00Z").Run (demoEnv [] rdateService)).err
              = some (.other "recurrence must contain exactly one RRULE")) :=
  ⟨⟨by decide,
      future_scope_call_sequence.2.1 (demoEnv [] demoService)
        (demoDelete "Future" "2024-03-04T09:00:00Z") "me@example.com" demoService weeklyMaster
        (some ["RRULE:FREQ=WEEKLY;BYDAY=MO;UNTIL=20240303T235959Z"]) rfl rfl (by decide)
        (by decide) rfl (by decide) (by decide) (by decide)⟩,
    ⟨by decide,
      future_scope_call_sequence.2.2.2 (demoEnv [] rdateService)
        (demoDelete "Future" "2024-03-04T09:00:00Z") "me@example.com" rdateService
        { Event.zero with Recurrence := some ["RDATE:20240311T090000Z"] }
        (.other "recurrence must contain exactly one RRULE") rfl rfl (by decide) (by decide)
        rfl (by decide) (by decide) (by decide)⟩⟩

/-- C6: with scope `single`, `applyUpdateScope` returns nil parent rules and leaves the
patch as it was.  An update that gets as far as the service stops at a failed fetch for
`--add-attendee` or a failed instance lookup without any patch, and otherwise issues
exactly one patch, addressed to the id the lookup returned, with the `Recurrence` and
`ForceSendFields` of the built patch; a delete likewise issues at most one delete,
addressed to the id the lookup returned.  No other patch or delete is issued, so none
goes to the master id unless the lookup returned that id, and the run does not depend
on `truncateRecurrence` at all. -/
theorem single_scope_touches_instance_only :
    (∀ (svc : Service) (calendarID eventID originalStartTime : String) (patch : Event)
        (tr : List Entry),
        (applyUpdateScope svc calendarID eventID scopeSingle originalStartTime patch
          tr).parentRecurrence = none ∧
        (applyUpdateScope svc calendarID eventID scopeSingle originalStartTime patch tr).patch
          = patch) ∧
    (∀ (env : Env) (u : CalendarUpdateCmd) (account : String) (svc : Service),
        env.requireAccount = .ok account → env.newCalendarService account = .ok svc →
        (u.Run env).serviceRequested = true → normalizeScope env u.Scope = scopeSingle →
        ∃ patch changed, u.buildUpdatePatch env = .ok (patch, changed) ∧
          ((env.flagProvided "add-attendee" = true ∧
              (u.Run env).trace = [⟨.get (trimSpace u.CalendarID) (trimSpace u.EventID), false⟩]) ∨
            (u.Run env).trace
              = attendeeFetch (env.flagProvided "add-attendee") (trimSpace u.CalendarID)
                  (trimSpace u.EventID) ++
                [⟨.lookup (trimSpace u.CalendarID) (trimSpace u.EventID) u.OriginalStartTime,
                  false⟩] ∨
            ∃ instanceID body ok,
              svc.resolveRecurringInstanceID
                  (attendeeFetch (env.flagProvided "add-attendee") (trimSpace u.CalendarID)
                    (trimSpace u.EventID))
                  (trimSpace u.CalendarID) (trimSpace u.EventID) u.OriginalStartTime
                = .ok instanceID ∧
              body.Recurrence = patch.Recurrence ∧
              body.ForceSendFields = patch.ForceSendFields ∧
              (u.Run env).trace
                = attendeeFetch (env.flagProvided "add-attendee") (trimSpace u.CalendarID)
                    (trimSpace u.EventID) ++
                  [⟨.lookup (trimSpace u.CalendarID) (trimSpace u.EventID) u.OriginalStartTime,
                    true⟩,
                    ⟨.patch (trimSpace u.CalendarID) instanceID body, ok⟩])) ∧
    (∀ (env : Env) (d : CalendarDeleteCmd) (account : String) (svc : Service),
        env.requireAccount = .ok account → env.newCalendarService account = .ok svc →
        (d.Run env).serviceRequested = true → normalizeScope env d.Scope = scopeSingle →
        (d.Run env).trace
            = [⟨.lookup (trimSpace d.CalendarID) (trimSpace d.EventID) d.OriginalStartTime, false⟩] ∨
          ∃ instanceID ok,
            svc.resolveRecurringInstanceID [] (trimSpace d.CalendarID) (trimSpace d.EventID)
              d.OriginalStartTime = .ok instanceID ∧
            (d.Run env).trace
              = [⟨.lookup (trimSpace d.CalendarID) (trimSpace d.EventID) d.OriginalStartTime, true⟩,
                  ⟨.delete (trimSpace d.CalendarID) instanceID, ok⟩]) ∧
    (∀ (env : Env) (u : CalendarUpdateCmd) (f : StrSlice → String → Except Error StrSlice),
        normalizeScope env u.Scope = scopeSingle →
        u.Run { env with truncateRecurrence := f } = u.Run env) ∧
    (∀ (env : Env) (d : CalendarDeleteCmd) (f : StrSlice → String → Except Error StrSlice),
        normalizeScope env d.Scope = scopeSingle →
        d.Run { env with truncateRecurrence := f } = d.Run env) := by
  refine ⟨?_, ?_, ?_, ?_, ?_⟩
  · intro svc calendarID eventID originalStartTime patch tr
    rw [applyUpdateScope_single_eq]
    cases svc.resolveRecurringInstanceID tr calendarID eventID originalStartTime <;>
      exact ⟨rfl, rfl⟩
  · intro env u account svc hacc hsvc hreq hscope
    obtain ⟨patch, changed, hbuild, -, hchanged, hrun⟩ :=
      update_run_of_serviceRequested env u account svc hacc hsvc hreq
    refine ⟨patch, changed, hbuild, ?_⟩
    rw [hrun, hscope]
    unfold CalendarUpdateCmd.runWithService
    cases hflag : env.flagProvided "add-attendee" with
    | true =>
      simp only [attendeeFetch, if_true]
      cases hfetch : svc.get [] (trimSpace u.CalendarID) (trimSpace u.EventID) with
      | error err => exact Or.inl ⟨trivial, rfl⟩
      | ok existing =>
        right
        simp only []
        rcases update_runScoped_single_trace env u svc (trimSpace u.CalendarID)
            (trimSpace u.EventID)
            { patch with Attendees := env.mergeAttendees existing.Attendees u.AddAttendee }
            [⟨.get (trimSpace u.CalendarID) (trimSpace u.EventID), true⟩] with h | ⟨i, ok, h1, h2⟩
        · exact Or.inl h
        · exact Or.inr ⟨i,
            { patch with Attendees := env.mergeAttendees existing.Attendees u.AddAttendee }, ok, h1,
            rfl, rfl, h2⟩
    | false =>
      have hch := changed_of_no_add_attendee env changed hchanged hflag
      subst hch
      simp only [attendeeFetch, Bool.false_eq_true, if_false]
      right
      rcases update_runScoped_single_trace env u svc (trimSpace u.CalendarID)
          (trimSpace u.EventID) patch [] with h | ⟨i, ok, h1, h2⟩
      · exact Or.inl h
      · exact Or.inr ⟨i, patch, ok, h1, rfl, rfl, h2⟩
  · intro env d account svc hacc hsvc hreq hscope
    rw [(delete_run_of_serviceRequested env d account svc hacc hsvc hreq).2, hscope,
      delete_runWithService_single_eq]
    cases hres : svc.resolveRecurringInstanceID [] (trimSpace d.CalendarID)
        (trimSpace d.EventID) d.OriginalStartTime with
    | error err => exact Or.inl rfl
    | ok instanceID =>
      right
      simp only []
      cases svc.delete ([] ++ [⟨.lookup (trimSpace d.CalendarID) (trimSpace d.EventID)
          d.OriginalStartTime, true⟩]) (trimSpace d.CalendarID) instanceID with
      | some err => exact ⟨instanceID, false, rfl, rfl⟩
      | none => exact ⟨instanceID, true, rfl, by simp [delete_report_trace]⟩
  · intro env u f hscope
    have hscoped : ∀ (svc : Service) (patch : Event) (changed : Bool) (tr : List Entry),
        u.runScoped { env with truncateRecurrence := f } svc (trimSpace u.CalendarID)
            (trimSpace u.EventID) scopeSingle patch changed tr
          = u.runScoped env svc (trimSpace u.CalendarID) (trimSpace u.EventID) scopeSingle patch
              changed tr := by
      intro svc patch changed tr
      cases changed with
      | false => rfl
      | true =>
        rw [update_runScoped_single_eq, update_runScoped_single_eq]
        rfl
    have hws : ∀ (svc : Service) (patch : Event) (changed : Bool),
        u.runWithService { env with truncateRecurrence := f } svc (trimSpace u.CalendarID)
            (trimSpace u.EventID) scopeSingle patch changed
          = u.runWithService env svc (trimSpace u.CalendarID) (trimSpace u.EventID) scopeSingle
              patch changed := by
      intro svc patch changed
      unfold CalendarUpdateCmd.runWithService
      simp only [hscoped]
    have hscope2 : normalizeScope { env with truncateRecurrence := f } u.Scope = scopeSingle :=
      hscope
    unfold CalendarUpdateCmd.Run
    rw [hscope2, hscope]
    simp only [hws]
    rfl
  · intro env d f hscope
    have hws : ∀ (svc : Service),
        d.runWithService { env with truncateRecurrence := f } svc (trimSpace d.CalendarID)
            (trimSpace d.EventID) scopeSingle
          = d.runWithService env svc (trimSpace d.CalendarID) (trimSpace d.EventID)
              scopeSingle := by
      intro svc
      rw [delete_runWithService_single_eq, delete_runWithService_single_eq]
      rfl
    have hscope2 : normalizeScope { env with truncateRecurrence := f } d.Scope = scopeSingle :=
      hscope
    unfold CalendarDeleteCmd.Run
    rw [hscope2, hscope]
    simp only [hws]
    rfl

theorem single_scope_touches_instance_only_witness :
    normalizeScope (demoEnv [] demoService) (demoDelete " single" "2024-03-04T09:00:00Z").Scope
        = scopeSingle ∧
      (((demoDelete " single" "2024-03-04T09:00:00Z").Run (demoEnv [] demoService)).trace
          = [⟨.lookup "primary" "E1" "2024-03-04T09:00:00Z", false⟩] ∨
        ∃ instanceID ok,
          demoService.resolveRecurringInstanceID [] "primary" "E1" "2024-03-04T09:00:00Z"
            = .ok instanceID ∧
          ((demoDelete " single" "2024-03-04T09:00:00Z").Run (demoEnv [] demoService)).trace
            = [⟨.lookup "primary" "E1" "2024-03-04T09:00:00Z", true⟩,
                ⟨.delete "primary" instanceID, ok⟩]) :=
  ⟨by decide,
    single_scope_touches_instance_only.2.2.1 (demoEnv [] demoService)
      (demoDelete " single" "2024-03-04T09:00:00Z") "me@example.com" demoService rfl rfl
      (by decide) (by decide)⟩

/-- C7, counterexample: an update with scope `all` and `--add-attendee` issues two remote
calls, a get of the event and then the patch. -/
theorem all_scope_single_call_counterexample :
    normalizeScope (demoEnv ["add-attendee"] demoService) (demoUpdate "all" "" none).Scope
        = scopeAll ∧
      outline ((demoUpdate "all" "" none).Run (demoEnv ["add-attendee"] demoService)).trace
        = [(("get", "E1"), true), (("patch", "E1"), true)] := by
  decide

/-- C7, amended: a delete with scope `all` that gets as far as the service issues exactly
one remote call, the delete of the given (trimmed) event id; an update with scope `all`
and without `--add-attendee` issues exactly one, the patch of the given event id with
the built patch.  With `--add-attendee` the update first gets the event, and patches
the given event id only when that get succeeded. -/
theorem all_scope_single_call :
    (∀ (env : Env) (u : CalendarUpdateCmd) (account : String) (svc : Service),
        env.requireAccount = .ok account → env.newCalendarService account = .ok svc →
        (u.Run env).serviceRequested = true → normalizeScope env u.Scope = scopeAll →
        ∃ patch changed, u.buildUpdatePatch env = .ok (patch, changed) ∧
          (env.flagProvided "add-attendee" = false →
            ∃ ok, (u.Run env).trace
              = [⟨.patch (trimSpace u.CalendarID) (trimSpace u.EventID) patch, ok⟩]) ∧
          (env.flagProvided "add-attendee" = true →
            (u.Run env).trace = [⟨.get (trimSpace u.CalendarID) (trimSpace u.EventID), false⟩] ∨
            ∃ existing ok,
              svc.get [] (trimSpace u.CalendarID) (trimSpace u.EventID) = .ok existing ∧
              (u.Run env).trace
                = [⟨.get (trimSpace u.CalendarID) (trimSpace u.EventID), true⟩,
                    ⟨.patch (trimSpace u.CalendarID) (trimSpace u.EventID)
                      { patch with
                        Attendees := env.mergeAttendees existing.Attendees u.AddAttendee },
                      ok⟩])) ∧
    (∀ (env : Env) (d : CalendarDeleteCmd) (account : String) (svc : Service),
        env.requireAccount = .ok account → env.newCalendarService account = .ok svc →
        (d.Run env).serviceRequested = true → normalizeScope env d.Scope = scopeAll →
        ∃ ok, (d.Run env).trace
          = [⟨.delete (trimSpace d.CalendarID) (trimSpace d.EventID), ok⟩]) := by
  constructor
  · intro env u account svc hacc hsvc hreq hscope
    obtain ⟨patch, changed, hbuild, -, hchanged, hrun⟩ :=
      update_run_of_serviceRequested env u account svc hacc hsvc hreq
    refine ⟨patch, changed, hbuild, ?_, ?_⟩
    · intro hflag
      have hch := changed_of_no_add_attendee env changed hchanged hflag
      subst hch
      rw [hrun, hscope]
      unfold CalendarUpdateCmd.runWithService
      simp only [hflag, Bool.false_eq_true, if_false]
      obtain ⟨ok, h⟩ := update_runScoped_all_trace env u svc (trimSpace u.CalendarID)
        (trimSpace u.EventID) patch []
      exact ⟨ok, by simpa using h⟩
    · intro hflag
      rw [hrun, hscope]
      unfold CalendarUpdateCmd.runWithService
      simp only [hflag, if_true]
      cases hfetch : svc.get [] (trimSpace u.CalendarID) (trimSpace u.EventID) with
      | error err => exact Or.inl rfl
      | ok existing =>
        right
        simp only []
        obtain ⟨ok, h⟩ := update_runScoped_all_trace env u svc (trimSpace u.CalendarID)
          (trimSpace u.EventID)
          { patch with Attendees := env.mergeAttendees existing.Attendees u.AddAttendee }
          [⟨.get (trimSpace u.CalendarID) (trimSpace u.EventID), true⟩]
        exact ⟨existing, ok, rfl, by simpa using h⟩
  · intro env d account svc hacc hsvc hreq hscope
    rw [(delete_run_of_serviceRequested env d account svc hacc hsvc hreq).2, hscope,
      delete_runWithService_all_eq]
    cases svc.delete [] (trimSpace d.CalendarID) (trimSpace d.EventID) with
    | some err => exact ⟨false, rfl⟩
    | none => exact ⟨true, by simp [delete_report_trace]⟩

theorem all_scope_single_call_witness :
    ((demoDelete "" "").Run (demoEnv [] demoService)).serviceRequested = true ∧
      normalizeScope (demoEnv [] demoService) (demoDelete "" "").Scope = scopeAll ∧
      ∃ ok, ((demoDelete "" "").Run (demoEnv [] demoService)).trace
        = [⟨.delete "primary" "E1", ok⟩] :=
  ⟨by decide, by decide,
    all_scope_single_call.2 (demoEnv [] demoService) (demoDelete "" "") "me@example.com"
      demoService rfl rfl (by decide) (by decide)⟩

/-- C9: in a run of the update or of the delete command, a remote call that fails (the
fetch for `--add-attendee`, the fetch of the master, the instance lookup, the patch or
delete of the target, the patch of the parent) is the last remote call of the run, and
the command returns an error. -/
theorem failed_call_ends_the_run (env : Env) (u : CalendarUpdateCmd) (d : CalendarDeleteCmd) :
    (∀ pre e post, (u.Run env).trace = pre ++ e :: post → e.ok = false →
        post = [] ∧ (u.Run env).err ≠ none) ∧
    (∀ pre e post, (d.Run env).trace = pre ++ e :: post → e.ok = false →
        post = [] ∧ (d.Run env).err ≠ none) :=
  ⟨fun pre e post h hf => stops_failed_is_last _ _ (update_run_stops env u) pre e post h hf,
    fun pre e post h hf => stops_failed_is_last _ _ (delete_run_stops env d) pre e post h hf⟩

theorem failed_call_ends_the_run_witness :
    ((demoDelete "future" "2024-03-04T09:00:00Z").Run (demoEnv [] lookupDownService)).trace
        = [⟨.get "primary" "E1", true⟩] ++
          ⟨.lookup "primary" "E1" "2024-03-04T09:00:00Z", false⟩ :: [] ∧
      (([] : List Entry) = [] ∧
        ((demoDelete "future" "2024-03-04T09:00:00Z").Run (demoEnv [] lookupDownService)).err
          ≠ none) :=
  ⟨by decide,
    (failed_call_ends_the_run (demoEnv [] lookupDownService)
      (demoUpdate "future" "2024-03-04T09:00:00Z" none)
      (demoDelete "future" "2024-03-04T09:00:00Z")).2 [⟨.get "primary" "E1", true⟩]
      ⟨.lookup "primary" "E1" "2024-03-04T09:00:00Z", false⟩ [] (by decide) rfl⟩

/-- C10: both commands lowercase and trim the scope flag and read the empty string as
`all`.  The scope switch returns the `invalid scope` error exactly when the normalised
scope is none of `single`, `future`, `all`, the usage error `--original-start required
when --scope=<scope>` exactly when the scope is `single` or `future` and the original
start is blank after trimming, and passes otherwise; scope `all` passes whatever the
original start is.  When the switch returns an error, the command returns an error
without asking for the service and without any remote call (it is that very error once
the account and the two ids are in order); when it passes and the other checks of the
command pass, the command goes on to ask for the service. -/
theorem scope_flag_validation (env : Env) (scopeFlag scope originalStart : String)
    (u : CalendarUpdateCmd) (d : CalendarDeleteCmd) :
    (normalizeScope env scopeFlag =
        if trimSpace (env.toLower scopeFlag) = "" then "all"
        else trimSpace (env.toLower scopeFlag)) ∧
    (checkScope env scope originalStart =
          some (.errorf ("invalid scope: " ++ env.quote scope ++ " (must be single, future, or all)"))
        ↔ scope ≠ "single" ∧ scope ≠ "future" ∧ scope ≠ "all") ∧
    (checkScope env scope originalStart =
          some (.usage ("--original-start required when --scope=" ++ scope))
        ↔ (scope = "single" ∨ scope = "future") ∧ trimSpace originalStart = "") ∧
    (checkScope env scope originalStart = none
        ↔ scope = "all" ∨ ((scope = "single" ∨ scope = "future") ∧ trimSpace originalStart ≠ "")) ∧
    checkScope env "all" originalStart = none ∧
    (∀ err, checkScope env (normalizeScope env u.Scope) u.OriginalStartTime = some err →
        (u.Run env).serviceRequested = false ∧ (u.Run env).trace = [] ∧
        (u.Run env).err ≠ none ∧
        (∀ account, env.requireAccount = .ok account → trimSpace u.CalendarID ≠ "" →
          trimSpace u.EventID ≠ "" → u.Run env = .early err)) ∧
    (∀ err, checkScope env (normalizeScope env d.Scope) d.OriginalStartTime = some err →
        (d.Run env).serviceRequested = false ∧ (d.Run env).trace = [] ∧
        (d.Run env).err ≠ none ∧
        (∀ account, env.requireAccount = .ok account → trimSpace d.CalendarID ≠ "" →
          trimSpace d.EventID ≠ "" → d.Run env = .early err)) ∧
    (∀ account patch changed, env.requireAccount = .ok account → trimSpace u.CalendarID ≠ "" →
        trimSpace u.EventID ≠ "" →
        (env.flagProvided "all-day" = true →
          env.flagProvided "from" = true ∧ env.flagProvided "to" = true) →
        ¬ (env.flagProvided "attendees" = true ∧ env.flagProvided "add-attendee" = true) →
        u.buildUpdatePatch env = .ok (patch, changed) →
        (env.flagProvided "add-attendee" = true → trimSpace u.AddAttendee ≠ "") →
        (changed = true ∨ env.flagProvided "add-attendee" = true) →
        ((u.Run env).serviceRequested = true ↔
          checkScope env (normalizeScope env u.Scope) u.OriginalStartTime = none)) ∧
    (∀ account, env.requireAccount = .ok account → trimSpace d.CalendarID ≠ "" →
        trimSpace d.EventID ≠ "" →
        env.confirmDestructive (d.confirmMessage (trimSpace d.CalendarID) (trimSpace d.EventID)
          (normalizeScope env d.Scope)) = none →
        ((d.Run env).serviceRequested = true ↔
          checkScope env (normalizeScope env d.Scope) d.OriginalStartTime = none)) := by
  refine ⟨rfl, ?_, ?_, ?_, ?_, ?_, ?_, ?_, ?_⟩
  · unfold checkScope scopeSingle scopeFuture scopeAll
    by_cases h1 : scope = "single"
    · by_cases hb : trimSpace originalStart = "" <;> simp [h1, hb]
    by_cases h2 : scope = "future"
    · by_cases hb : trimSpace originalStart = "" <;> simp [h2, hb]
    by_cases h3 : scope = "all"
    · simp [h3]
    simp [h1, h2, h3]
  · unfold checkScope scopeSingle scopeFuture scopeAll
    by_cases h1 : scope = "single"
    · subst h1
      by_cases hb : trimSpace originalStart = ""
      · simp only [hb, if_true, true_or, and_self, iff_true]
        decide
      · simp [hb]
    by_cases h2 : scope = "future"
    · subst h2
      by_cases hb : trimSpace originalStart = ""
      · simp only [hb, if_true, or_true, and_self, iff_true]
        decide
      · simp [hb]
    by_cases h3 : scope = "all"
    · simp [h3]
    simp [h1, h2, h3]
  · unfold checkScope scopeSingle scopeFuture scopeAll
    by_cases h1 : scope = "single"
    · by_cases hb : trimSpace originalStart = "" <;> simp [h1, hb]
    by_cases h2 : scope = "future"
    · by_cases hb : trimSpace originalStart = "" <;> simp [h2, hb]
    by_cases h3 : scope = "all"
    · simp [h3]
    simp [h1, h2, h3]
  · simp [checkScope, scopeSingle, scopeFuture, scopeAll]
  · intro err hchk
    have key : ∃ e, u.Run env = .early e ∧
        (∀ account, env.requireAccount = .ok account → trimSpace u.CalendarID ≠ "" →
          trimSpace u.EventID ≠ "" → e = err) := by
      unfold CalendarUpdateCmd.Run
      cases hacc : env.requireAccount with
      | error e0 => exact ⟨e0, rfl, fun account h => by cases h⟩
      | ok account =>
        by_cases h1 : trimSpace u.CalendarID = ""
        · exact ⟨.usage "empty calendarId", by simp only [h1, if_true], fun _ _ h => absurd h1 h⟩
        by_cases h2 : trimSpace u.EventID = ""
        · exact ⟨.usage "empty eventId", by simp only [h1, h2, if_true, if_false],
            fun _ _ _ h => absurd h2 h⟩
        exact ⟨err, by simp only [h1, h2, if_false, hchk], fun _ _ _ _ => rfl⟩
    obtain ⟨e, hrun, he⟩ := key
    rw [hrun]
    refine ⟨rfl, rfl, by simp [RunResult.early], ?_⟩
    intro account hacc h1 h2
    rw [he account hacc h1 h2]
  · intro err hchk
    have key : ∃ e, d.Run env = .early e ∧
        (∀ account, env.requireAccount = .ok account → trimSpace d.CalendarID ≠ "" →
          trimSpace d.EventID ≠ "" → e = err) := by
      unfold CalendarDeleteCmd.Run
      cases hacc : env.requireAccount with
      | error e0 => exact ⟨e0, rfl, fun account h => by cases h⟩
      | ok account =>
        by_cases h1 : trimSpace d.CalendarID = ""
        · exact ⟨.usage "empty calendarId", by simp only [h1, if_true], fun _ _ h => absurd h1 h⟩
        by_cases h2 : trimSpace d.EventID = ""
        · exact ⟨.usage "empty eventId", by simp only [h1, h2, if_true, if_false],
            fun _ _ _ h => absurd h2 h⟩
        exact ⟨err, by simp only [h1, h2, if_false, hchk], fun _ _ _ _ => rfl⟩
    obtain ⟨e, hrun, he⟩ := key
    rw [hrun]
    refine ⟨rfl, rfl, by simp [RunResult.early], ?_⟩
    intro account hacc h1 h2
    rw [he account hacc h1 h2]
  · intro account patch changed hacc h1 h2 hallday hboth hbuild hadd hchanged
    have g3 : (env.flagProvided "all-day" &&
        (!env.flagProvided "from" || !env.flagProvided "to")) = false := by
      cases ha : env.flagProvided "all-day"
      · rfl
      · obtain ⟨hf, ht⟩ := hallday ha
        simp [hf, ht]
    have g4 : (env.flagProvided "attendees" && env.flagProvided "add-attendee") = false := by
      cases ha : env.flagProvided "attendees" <;> cases hb : env.flagProvided "add-attendee" <;>
        simp_all
    have g5 : (env.flagProvided "add-attendee" && decide (trimSpace u.AddAttendee = "")) = false := by
      cases ha : env.flagProvided "add-attendee"
      · rfl
      · simpa using hadd ha
    have g6 : (!changed && !env.flagProvided "add-attendee") = false := by
      rcases hchanged with h | h <;> simp [h]
    unfold CalendarUpdateCmd.Run
    simp only [hacc, h1, h2, if_false]
    cases hchk : checkScope env (normalizeScope env u.Scope) u.OriginalStartTime with
    | some err => simp [RunResult.early]
    | none =>
      simp only [g3, g4, g5, g6, hbuild, Bool.false_eq_true, if_false, iff_true]
      cases hsvc : env.newCalendarService account with
      | error e => rfl
      | ok svc =>
        exact update_runWithService_serviceRequested _ _ _ _ _ _ _ _
  · intro account hacc h1 h2 hconf
    unfold CalendarDeleteCmd.Run
    simp only [hacc, h1, h2, if_false]
    cases hchk : checkScope env (normalizeScope env d.Scope) d.OriginalStartTime with
    | some err => simp [RunResult.early]
    | none =>
      simp only [hconf, iff_true]
      cases hsvc : env.newCalendarService account with
      | error e => rfl
      | ok svc =>
        exact delete_runWithService_serviceRequested _ _ _ _ _ _

theorem scope_flag_validation_witness :
    checkScope (demoEnv [] demoService)
        (normalizeScope (demoEnv [] demoService) (demoDelete " Single " "  ").Scope)
        (demoDelete " Single " "  ").OriginalStartTime
        = some (.usage "--original-start required when --scope=single") ∧
      ((demoDelete " Single " "  ").Run (demoEnv [] demoService)).serviceRequested = false ∧
      ((demoDelete " Single " "  ").Run (demoEnv [] demoService)).trace = [] ∧
      ((demoDelete " Single " "  ").Run (demoEnv [] demoService)).err ≠ none :=
  ⟨by decide,
    (((scope_flag_validation (demoEnv [] demoService) " Single " "single" "  "
      (demoUpdate "sideways" "" none) (demoDelete " Single " "  ")).2.2.2.2.2.2.1
      (.usage "--original-start required when --scope=single") (by decide)).1),
    (((scope_flag_validation (demoEnv [] demoService) " Single " "single" "  "
      (demoUpdate "sideways" "" none) (demoDelete " Single " "  ")).2.2.2.2.2.2.1
      (.usage "--original-start required when --scope=single") (by decide)).2.1),
    (((scope_flag_validation (demoEnv [] demoService) " Single " "single" "  "
      (demoUpdate "sideways" "" none) (demoDelete " Single " "  ")).2.2.2.2.2.2.1
      (.usage "--original-start required when --scope=single") (by decide)).2.2.1)⟩

/-! ### Lemmas for the second run of `applyUpdateScope` -/

theorem applyUpdateScope_other_eq (svc : Service)
    (calendarID eventID scope originalStartTime : String) (patch : Event) (tr : List Entry)
    (hfuture : scope ≠ scopeFuture) (hsingle : scope ≠ scopeSingle) :
    applyUpdateScope svc calendarID eventID scope originalStartTime patch tr
      = ⟨eventID, none, none, patch, tr⟩ := by
  simp [applyUpdateScope, applyUpdateScopeInstance, hfuture, hsingle]

/-- The patch an update with scope `future` leaves behind is left as it is by a second
pass over it with the same rules of the master. -/
theorem inherit_twice (patch : Event) (rules : StrSlice) :
    (if recurrenceOverride
          (if recurrenceOverride patch then patch else { patch with Recurrence := rules }) then
        (if recurrenceOverride patch then patch else { patch with Recurrence := rules })
      else
        { (if recurrenceOverride patch then patch else { patch with Recurrence := rules }) with
          Recurrence := rules })
      = (if recurrenceOverride patch then patch else { patch with Recurrence := rules }) := by
  by_cases h : recurrenceOverride patch = true
  · simp only [h, if_true]
  · have h0 : recurrenceOverride patch = false := by simpa using h
    rw [h0]
    simp only [Bool.false_eq_true, if_false]
    by_cases h2 : recurrenceOverride { patch with Recurrence := rules } = true
    · simp only [h2, if_true]
    · simp only [h2, Bool.false_eq_true, if_false]

/-- The calls `applyUpdateScope` adds to the trace are gets of the master and lookups
of the instance. -/
theorem applyUpdateScope_reads (svc : Service)
    (calendarID eventID scope originalStartTime : String) (patch : Event) (tr : List Entry) :
    ∃ added,
      (applyUpdateScope svc calendarID eventID scope originalStartTime patch tr).trace
        = tr ++ added ∧
      ∀ e ∈ added, e.call = .get calendarID eventID ∨
        e.call = .lookup calendarID eventID originalStartTime := by
  by_cases hf : scope = scopeFuture
  · subst hf
    rw [applyUpdateScope_future_eq]
    cases svc.get tr calendarID eventID with
    | error err => exact ⟨[⟨.get calendarID eventID, false⟩], rfl, by simp⟩
    | ok parent =>
      simp only []
      split
      · exact ⟨[⟨.get calendarID eventID, true⟩], rfl, by simp⟩
      · cases svc.resolveRecurringInstanceID (tr ++ [⟨.get calendarID eventID, true⟩])
            calendarID eventID originalStartTime with
        | error err =>
          exact ⟨[⟨.get calendarID eventID, true⟩,
            ⟨.lookup calendarID eventID originalStartTime, false⟩], by simp, by simp⟩
        | ok instanceID =>
          exact ⟨[⟨.get calendarID eventID, true⟩,
            ⟨.lookup calendarID eventID originalStartTime, true⟩], by simp, by simp⟩
  · by_cases hs : scope = scopeSingle
    · subst hs
      rw [applyUpdateScope_single_eq]
      cases svc.resolveRecurringInstanceID tr calendarID eventID originalStartTime with
      | error err =>
        exact ⟨[⟨.lookup calendarID eventID originalStartTime, false⟩], rfl, by simp⟩
      | ok instanceID =>
        exact ⟨[⟨.lookup calendarID eventID originalStartTime, true⟩], rfl, by simp⟩
    · rw [applyUpdateScope_other_eq _ _ _ _ _ _ _ hf hs]
      exact ⟨[], by simp, by simp⟩

/-- A second run of `applyUpdateScope`, on the patch the first run left and started at
a trace `tr2` at which the service answers the get and the lookup as it did in the first
run, returns what the first run returned and leaves the patch as the first run left it. -/
theorem applyUpdateScope_rerun (svc : Service)
    (calendarID eventID scope originalStartTime : String) (patch : Event) (tr tr2 : List Entry)
    (hget : svc.get tr2 calendarID eventID = svc.get tr calendarID eventID)
    (hres : ∀ x, svc.resolveRecurringInstanceID (tr2 ++ x) calendarID eventID originalStartTime
      = svc.resolveRecurringInstanceID (tr ++ x) calendarID eventID originalStartTime) :
    (applyUpdateScope svc calendarID eventID scope originalStartTime
        (applyUpdateScope svc calendarID eventID scope originalStartTime patch tr).patch
        tr2).targetEventID
        = (applyUpdateScope svc calendarID eventID scope originalStartTime patch tr).targetEventID ∧
      (applyUpdateScope svc calendarID eventID scope originalStartTime
        (applyUpdateScope svc calendarID eventID scope originalStartTime patch tr).patch
        tr2).parentRecurrence
        = (applyUpdateScope svc calendarID eventID scope originalStartTime patch
            tr).parentRecurrence ∧
      (applyUpdateScope svc calendarID eventID scope originalStartTime
        (applyUpdateScope svc calendarID eventID scope originalStartTime patch tr).patch
        tr2).err
        = (applyUpdateScope svc calendarID eventID scope originalStartTime patch tr).err ∧
      (applyUpdateScope svc calendarID eventID scope originalStartTime
        (applyUpdateScope svc calendarID eventID scope originalStartTime patch tr).patch
        tr2).patch
        = (applyUpdateScope svc calendarID eventID scope originalStartTime patch tr).patch := by
  by_cases hf : scope = scopeFuture
  · subst hf
    simp only [applyUpdateScope_future_eq, hget, hres]
    cases svc.get tr calendarID eventID with
    | error err => exact ⟨rfl, rfl, rfl, rfl⟩
    | ok parent =>
      simp only []
      by_cases hrec : len parent.Recurrence = 0
      · simp only [hrec, if_true, and_self]
      · simp only [hrec, if_false]
        cases svc.resolveRecurringInstanceID (tr ++ [⟨.get calendarID eventID, true⟩])
            calendarID eventID originalStartTime with
        | error err =>
          simp only [inherit_twice, and_self]
        | ok instanceID =>
          simp only [inherit_twice, and_self]
  · by_cases hs : scope = scopeSingle
    · subst hs
      have h0 := hres []
      simp only [List.append_nil] at h0
      simp only [applyUpdateScope_single_eq, h0]
      cases svc.resolveRecurringInstanceID tr calendarID eventID originalStartTime with
      | error err => exact ⟨rfl, rfl, rfl, rfl⟩
      | ok instanceID => exact ⟨rfl, rfl, rfl, rfl⟩
    · simp only [applyUpdateScope_other_eq _ _ _ _ _ _ _ hf hs, and_self]

/-! ## The claims, concluded -/

/-- C11: the calls `applyUpdateScope` adds to the trace are gets of the master and
lookups of the instance, never a patch or a delete.  And it is idempotent, for every
scope, series id, original start and patch: run a second time on the patch as the first
run left it, against the same answers of the service (from the same trace, or from the
trace the first run left when the answers to the get and to the lookup do not depend on
the trace), it returns the target id, the parent rules and the error of the first run
and leaves the patch exactly as the first run left it. -/
theorem applyUpdateScope_reads_only_and_idempotent (svc : Service)
    (calendarID eventID scope originalStartTime : String) (patch : Event) (tr : List Entry) :
    (∃ added,
      (applyUpdateScope svc calendarID eventID scope originalStartTime patch tr).trace
        = tr ++ added ∧
      ∀ e ∈ added, e.call.isMutating = false ∧
        (e.call = .get calendarID eventID ∨
          e.call = .lookup calendarID eventID originalStartTime)) ∧
    ((applyUpdateScope svc calendarID eventID scope originalStartTime
        (applyUpdateScope svc calendarID eventID scope originalStartTime patch tr).patch
        tr).targetEventID
        = (applyUpdateScope svc calendarID eventID scope originalStartTime patch tr).targetEventID ∧
      (applyUpdateScope svc calendarID eventID scope originalStartTime
        (applyUpdateScope svc calendarID eventID scope originalStartTime patch tr).patch
        tr).parentRecurrence
        = (applyUpdateScope svc calendarID eventID scope originalStartTime patch
            tr).parentRecurrence ∧
      (applyUpdateScope svc calendarID eventID scope originalStartTime
        (applyUpdateScope svc calendarID eventID scope originalStartTime patch tr).patch
        tr).err
        = (applyUpdateScope svc calendarID eventID scope originalStartTime patch tr).err ∧
      (applyUpdateScope svc calendarID eventID scope originalStartTime
        (applyUpdateScope svc calendarID eventID scope originalStartTime patch tr).patch
        tr).patch
        = (applyUpdateScope svc calendarID eventID scope originalStartTime patch tr).patch) ∧
    ((∀ h, svc.get h calendarID eventID = svc.get tr calendarID eventID) →
      (∀ h, svc.resolveRecurringInstanceID h calendarID eventID originalStartTime
        = svc.resolveRecurringInstanceID tr calendarID eventID originalStartTime) →
      (applyUpdateScope svc calendarID eventID scope originalStartTime
          (applyUpdateScope svc calendarID eventID scope originalStartTime patch tr).patch
          (applyUpdateScope svc calendarID eventID scope originalStartTime patch
            tr).trace).targetEventID
          = (applyUpdateScope svc calendarID eventID scope originalStartTime patch
              tr).targetEventID ∧
        (applyUpdateScope svc calendarID eventID scope originalStartTime
          (applyUpdateScope svc calendarID eventID scope originalStartTime patch tr).patch
          (applyUpdateScope svc calendarID eventID scope originalStartTime patch
            tr).trace).parentRecurrence
          = (applyUpdateScope svc calendarID eventID scope originalStartTime patch
              tr).parentRecurrence ∧
        (applyUpdateScope svc calendarID eventID scope originalStartTime
          (applyUpdateScope svc calendarID eventID scope originalStartTime patch tr).patch
          (applyUpdateScope svc calendarID eventID scope originalStartTime patch
            tr).trace).err
          = (applyUpdateScope svc calendarID eventID scope originalStartTime patch tr).err ∧
        (applyUpdateScope svc calendarID eventID scope originalStartTime
          (applyUpdateScope svc calendarID eventID scope originalStartTime patch tr).patch
          (applyUpdateScope svc calendarID eventID scope originalStartTime patch
            tr).trace).patch
          = (applyUpdateScope svc calendarID eventID scope originalStartTime patch tr).patch) := by
  refine ⟨?_, ?_, ?_⟩
  · obtain ⟨added, htrace, hadded⟩ :=
      applyUpdateScope_reads svc calendarID eventID scope originalStartTime patch tr
    refine ⟨added, htrace, fun e he => ⟨?_, hadded e he⟩⟩
    rcases hadded e he with h | h <;> rw [h] <;> rfl
  · exact applyUpdateScope_rerun svc calendarID eventID scope originalStartTime patch tr tr rfl
      (fun _ => rfl)
  · intro hget hres
    exact applyUpdateScope_rerun svc calendarID eventID scope originalStartTime patch tr _
      (hget _) (fun x => (hres _).trans (hres _).symm)

theorem applyUpdateScope_reads_only_and_idempotent_witness :
    (∀ h, demoService.get h "primary" "E1" = demoService.get [] "primary" "E1") ∧
      (∀ h, demoService.resolveRecurringInstanceID h "primary" "E1" "2024-03-04T09:00:00Z"
        = demoService.resolveRecurringInstanceID [] "primary" "E1" "2024-03-04T09:00:00Z") ∧
      ((applyUpdateScope demoService "primary" "E1" scopeFuture "2024-03-04T09:00:00Z"
          (applyUpdateScope demoService "primary" "E1" scopeFuture "2024-03-04T09:00:00Z"
            summaryPatch []).patch
          (applyUpdateScope demoService "primary" "E1" scopeFuture "2024-03-04T09:00:00Z"
            summaryPatch []).trace).targetEventID
          = (applyUpdateScope demoService "primary" "E1" scopeFuture "2024-03-04T09:00:00Z"
              summaryPatch []).targetEventID ∧
        (applyUpdateScope demoService "primary" "E1" scopeFuture "2024-03-04T09:00:00Z"
          (applyUpdateScope demoService "primary" "E1" scopeFuture "2024-03-04T09:00:00Z"
            summaryPatch []).patch
          (applyUpdateScope demoService "primary" "E1" scopeFuture "2024-03-04T09:00:00Z"
            summaryPatch []).trace).parentRecurrence
          = (applyUpdateScope demoService "primary" "E1" scopeFuture "2024-03-04T09:00:00Z"
              summaryPatch []).parentRecurrence ∧
        (applyUpdateScope demoService "primary" "E1" scopeFuture "2024-03-04T09:00:00Z"
          (applyUpdateScope demoService "primary" "E1" scopeFuture "2024-03-04T09:00:00Z"
            summaryPatch []).patch
          (applyUpdateScope demoService "primary" "E1" scopeFuture "2024-03-04T09:00:00Z"
            summaryPatch []).trace).err
          = (applyUpdateScope demoService "primary" "E1" scopeFuture "2024-03-04T09:00:00Z"
              summaryPatch []).err ∧
        (applyUpdateScope demoService "primary" "E1" scopeFuture "2024-03-04T09:00:00Z"
          (applyUpdateScope demoService "primary" "E1" scopeFuture "2024-03-04T09:00:00Z"
            summaryPatch []).patch
          (applyUpdateScope demoService "primary" "E1" scopeFuture "2024-03-04T09:00:00Z"
            summaryPatch []).trace).patch
          = (applyUpdateScope demoService "primary" "E1" scopeFuture "2024-03-04T09:00:00Z"
              summaryPatch []).patch) :=
  ⟨fun _ => rfl, fun _ => rfl,
    (applyUpdateScope_reads_only_and_idempotent demoService "primary" "E1" scopeFuture
      "2024-03-04T09:00:00Z" summaryPatch []).2.2 (fun _ => rfl) (fun _ => rfl)⟩

end Gogcli
